import Mathlib

/-!
# Gaming_System_Arduino : a shallow embedding of the three-game console sketch

The sketch keeps all of its state in global variables.  Each game's globals are
collected in one structure and each block of the sketch becomes a function on
that structure.

Conventions of the embedding

* `int` variables are mathematical integers (`Int`); counters that the sketch
  only ever counts upwards from a non-negative constant and uses as array
  bounds (`snakeLength`) are `Nat`.
* `unsigned long` values (`millis()`, `lastFrame`) are naturals below `2 ^ 32`
  and their subtraction wraps modulo `2 ^ 32`.
* The fixed-size arrays are lists; a well-formed state holds lists of the
  declared size.  Reading is `List.getD`, writing is `List.set`.
* The Arduino pseudo random generator is an arbitrary sequence `rnd : Nat → Nat`
  of raw values together with a cursor `seed` kept in the state;
  `random(lo, hi)` reduces the raw value into `[lo, hi)`.
* LCD output, the buzzer and `delay` have no influence on the game state and
  are left out; every joystick sample is an argument of the frame in which it
  is read.
-/

namespace GamingSystem

/-! ## Constants (lines 11-16, 31-34, 43) -/

def lcdCols : Int := 16
def lcdRows : Int := 2
def totalGames : Int := 3
def frameDelay : Nat := 150
def maxObstacles : Nat := 5
def snakeMaxLength : Nat := 16

/-- Arduino core `random(howsmall, howbig)` applied to one raw value of the
generator: `howsmall` when the range is empty, otherwise
`raw % (howbig - howsmall) + howsmall`. -/
def random (raw : Nat) (howsmall howbig : Int) : Int :=
  if howsmall ≥ howbig then howsmall
  else (raw : Int) % (howbig - howsmall) + howsmall

/-! ## Game 2 : Snake (lines 42-50, 156-198) -/

structure SnakeState where
  snakeX : List Int
  snakeY : List Int
  snakeLength : Nat
  foodX : Int
  foodY : Int
  dirX : Int
  dirY : Int
  snakeScore : Int
  snakeOver : Bool
  seed : Nat
  deriving DecidableEq

/-- A state whose two body arrays have the declared size `snakeMaxLength`. -/
def SnakeState.WF (s : SnakeState) : Prop :=
  s.snakeX.length = snakeMaxLength ∧ s.snakeY.length = snakeMaxLength

instance (s : SnakeState) : Decidable s.WF := by
  unfold SnakeState.WF; infer_instance

/-- Lines 195-198: `placeFood`, two consecutive draws. -/
def placeFood (rnd : Nat → Nat) (s : SnakeState) : SnakeState :=
  { s with
    foodX := random (rnd s.seed) 0 lcdCols
    foodY := random (rnd (s.seed + 1)) 0 lcdRows
    seed := s.seed + 2 }

/-- Lines 157-158: the reset at the start of `playSnake`.  Only element 0 of
the body arrays is assigned. -/
def snakeReset (rnd : Nat → Nat) (prev : SnakeState) : SnakeState :=
  placeFood rnd
    { prev with
      snakeLength := 3
      snakeX := prev.snakeX.set 0 5
      snakeY := prev.snakeY.set 0 0
      dirX := 1
      dirY := 0
      snakeScore := 0
      snakeOver := false }

/-- The body of the loop of lines 162-165 on one array, for the loop variable
running from `i` down to `1`: `a[i] = a[i - 1]`. -/
def shiftFrom : Nat → List Int → List Int
  | 0, a => a
  | i + 1, a => shiftFrom i (a.set (i + 1) (a.getD i 0))

/-- Lines 162-167: shift the body, then advance the head. -/
def snakeMove (s : SnakeState) : SnakeState :=
  let xs := shiftFrom (s.snakeLength - 1) s.snakeX
  let ys := shiftFrom (s.snakeLength - 1) s.snakeY
  { s with
    snakeX := xs.set 0 (xs.getD 0 0 + s.dirX)
    snakeY := ys.set 0 (ys.getD 0 0 + s.dirY) }

/-- Line 168: the wall test. -/
def snakeWall (s : SnakeState) : SnakeState :=
  if s.snakeX.getD 0 0 < 0 ∨ s.snakeX.getD 0 0 ≥ lcdCols ∨
      s.snakeY.getD 0 0 < 0 ∨ s.snakeY.getD 0 0 ≥ lcdRows
  then { s with snakeOver := true } else s

/-- Line 169: the self-collision loop, `n` iterations left, loop variable `i`. -/
def snakeSelf : Nat → Nat → SnakeState → SnakeState
  | 0, _, s => s
  | n + 1, i, s =>
    snakeSelf n (i + 1)
      (if s.snakeX.getD 0 0 = s.snakeX.getD i 0 ∧ s.snakeY.getD 0 0 = s.snakeY.getD i 0
       then { s with snakeOver := true } else s)

/-- Line 170: food capture. -/
def snakeEat (rnd : Nat → Nat) (s : SnakeState) : SnakeState :=
  if s.snakeX.getD 0 0 = s.foodX ∧ s.snakeY.getD 0 0 = s.foodY then
    let s1 := placeFood rnd { s with snakeLength := s.snakeLength + 1 }
    { s1 with snakeScore := s1.snakeScore + 1 }
  else s

/-- Lines 179-182: the four turn tests, in the order of the sketch. -/
def snakeTurn (s : SnakeState) (joyX joyY : Int) : SnakeState :=
  let s1 := if joyX < 400 ∧ s.dirX ≠ 1 then { s with dirX := -1, dirY := 0 } else s
  let s2 := if joyX > 600 ∧ s1.dirX ≠ -1 then { s1 with dirX := 1, dirY := 0 } else s1
  let s3 := if joyY < 400 ∧ s2.dirY ≠ 1 then { s2 with dirX := 0, dirY := -1 } else s2
  if joyY > 600 ∧ s3.dirY ≠ -1 then { s3 with dirX := 0, dirY := 1 } else s3

/-- Lines 162-170: the part of a frame before rendering. -/
def snakeAdvance (rnd : Nat → Nat) (s : SnakeState) : SnakeState :=
  let s1 := snakeWall (snakeMove s)
  snakeEat rnd (snakeSelf (s1.snakeLength - 1) 1 s1)

/-- Lines 173-176: the indices of `snakeX`/`snakeY` read by the render loop. -/
def renderIndices (s : SnakeState) : List Nat := List.range s.snakeLength

/-- Lines 162-165: the indices of `snakeX`/`snakeY` written by the shift loop. -/
def shiftIndices (s : SnakeState) : List Nat :=
  (List.range s.snakeLength).filter (fun i => 0 < i)

/-- Lines 161-182: one frame of Snake with the two joystick samples. -/
def snakeFrame (rnd : Nat → Nat) (s : SnakeState) (joyX joyY : Int) : SnakeState :=
  snakeTurn (snakeAdvance rnd s) joyX joyY

/-- The `while (!snakeOver)` loop of `playSnake`, one joystick pair per due
frame: frames run only while the session is not over. -/
def snakeRun (rnd : Nat → Nat) (s : SnakeState) : List (Int × Int) → SnakeState
  | [] => s
  | j :: js => if s.snakeOver then s else snakeRun rnd (snakeFrame rnd s j.1 j.2) js

/-! ## Game 3 : Paddle-Ball (lines 52-57, 203-221) -/

structure PongState where
  ballX : Int
  ballY : Int
  ballVelX : Int
  ballVelY : Int
  paddleY : Int
  pongScore : Int
  pongOver : Bool
  deriving DecidableEq

/-- Line 204: the reset at the start of `playPong`; every variable of the game
is assigned. -/
def pongReset (prev : PongState) : PongState :=
  { prev with
    ballX := 7
    ballY := 0
    ballVelX := 1
    ballVelY := 1
    pongScore := 0
    pongOver := false
    paddleY := 0 }

/-- Lines 211-212: advance the ball by its velocity. -/
def pongAdvance (s : PongState) : PongState :=
  { s with ballX := s.ballX + s.ballVelX, ballY := s.ballY + s.ballVelY }

/-- Line 213: the vertical bounce test; only the velocity is changed. -/
def pongBounce (s : PongState) : PongState :=
  if s.ballY < 0 ∨ s.ballY ≥ lcdRows then { s with ballVelY := s.ballVelY * -1 } else s

/-- Line 214: the paddle hit. -/
def pongHit (s : PongState) : PongState :=
  if s.ballX = 1 ∧ s.ballY = s.paddleY then
    { s with ballVelX := s.ballVelX * -1, pongScore := s.pongScore + 1 }
  else s

/-- Line 215: the miss. -/
def pongMiss (s : PongState) : PongState :=
  if s.ballX ≤ 0 then { s with pongOver := true } else s

/-- Line 216: the bounce at the far wall. -/
def pongFarWall (s : PongState) : PongState :=
  if s.ballX ≥ lcdCols - 1 then { s with ballVelX := s.ballVelX * -1 } else s

/-- Lines 217-219: the paddle follows the single sample of the vertical axis. -/
def pongInput (s : PongState) (joyY : Int) : PongState :=
  let s1 := if joyY < 400 then { s with paddleY := 0 } else s
  if joyY > 600 then { s1 with paddleY := 1 } else s1

/-- Lines 211-219: one frame of Paddle-Ball. -/
def pongFrame (s : PongState) (joyY : Int) : PongState :=
  pongInput (pongFarWall (pongMiss (pongHit (pongBounce (pongAdvance s))))) joyY

/-- The `while (!pongOver)` loop of `playPong`, one joystick sample per due
frame. -/
def pongRun (s : PongState) : List Int → PongState
  | [] => s
  | j :: js => if s.pongOver then s else pongRun (pongFrame s j) js

/-! ## Game 1 : Flyer (lines 33-40, 106-142) -/

structure FlappyState where
  obstacleCols : List Int
  gapRows : List Int
  flappyRow : Int
  flappyScore : Int
  flappySpeed : Int
  flappyOver : Bool
  seed : Nat
  deriving DecidableEq

/-- A state whose two obstacle arrays have the declared size `maxObstacles`. -/
def FlappyState.WF (s : FlappyState) : Prop :=
  s.obstacleCols.length = maxObstacles ∧ s.gapRows.length = maxObstacles

instance (s : FlappyState) : Decidable s.WF := by
  unfold FlappyState.WF; infer_instance

/-- Lines 108-111: the loop that places the obstacles, `n` iterations left,
loop variable `i`. -/
def flappyPlace (rnd : Nat → Nat) : Nat → Nat → FlappyState → FlappyState
  | 0, _, s => s
  | n + 1, i, s =>
    flappyPlace rnd n (i + 1)
      { s with
        obstacleCols := s.obstacleCols.set i (lcdCols + (i : Int) * 4)
        gapRows := s.gapRows.set i (random (rnd s.seed) 0 2)
        seed := s.seed + 1 }

/-- Lines 107-111: the reset at the start of `playFlappyBird`. -/
def flappyReset (rnd : Nat → Nat) (prev : FlappyState) : FlappyState :=
  flappyPlace rnd maxObstacles 0
    { prev with flappyScore := 0, flappyRow := 0, flappySpeed := 400, flappyOver := false }

/-- Lines 131-137: advance slot `i` by one column and recycle it when it has
left the display. -/
def obstacleStep (rnd : Nat → Nat) (i : Nat) (s : FlappyState) : FlappyState :=
  let s1 := { s with obstacleCols := s.obstacleCols.set i (s.obstacleCols.getD i 0 - 1) }
  if s1.obstacleCols.getD i 0 < 0 then
    { s1 with
      obstacleCols := s1.obstacleCols.set i (lcdCols + random (rnd s1.seed) 3 8)
      gapRows := s1.gapRows.set i (random (rnd (s1.seed + 1)) 0 2)
      flappyScore := s1.flappyScore + 1
      flappySpeed := if s1.flappySpeed > 150 then s1.flappySpeed - 10 else s1.flappySpeed
      seed := s1.seed + 2 }
  else s1

/-- Lines 118-138: the loop over the obstacle slots, `n` iterations left, loop
variable `i`; the collision test of line 127 leaves the loop (`break`). -/
def obstacleLoop (rnd : Nat → Nat) : Nat → Nat → FlappyState → FlappyState
  | 0, _, s => s
  | n + 1, i, s =>
    if s.obstacleCols.getD i 0 = 0 ∧ s.flappyRow ≠ s.gapRows.getD i 0 then
      { s with flappyOver := true }
    else obstacleLoop rnd n (i + 1) (obstacleStep rnd i s)

/-- Lines 139-140: the two samples of the vertical axis. -/
def flappyInput (s : FlappyState) (joy1 joy2 : Int) : FlappyState :=
  let s1 := if joy1 < 400 then { s with flappyRow := 0 } else s
  if joy2 > 600 then { s1 with flappyRow := 1 } else s1

/-- Lines 115-140: one frame of Flyer. -/
def flappyFrame (rnd : Nat → Nat) (s : FlappyState) (joy1 joy2 : Int) : FlappyState :=
  flappyInput (obstacleLoop rnd maxObstacles 0 s) joy1 joy2

/-- The `while (!flappyOver)` loop of `playFlappyBird`, one pair of joystick
samples per due frame. -/
def flappyRun (rnd : Nat → Nat) (s : FlappyState) : List (Int × Int) → FlappyState
  | [] => s
  | j :: js => if s.flappyOver then s else flappyRun rnd (flappyFrame rnd s j.1 j.2) js

/-! ## Frame pacing (lines 30-31, 113-114, 160-161, 206-207) -/

/-- Conversion of an `int` to `unsigned long`. -/
def ulong (v : Int) : Nat := (v % 4294967296).toNat

/-- The value of `millis() - lastFrame` in `unsigned long` arithmetic. -/
def elapsed (now lastFrame : Nat) : Nat := (now + 4294967296 - lastFrame) % 4294967296

/-- Lines 113-114 and the frame they guard: one pass of the body of the
`while` loop of `playFlappyBird`.  `t1` and `t2` are the values of the two calls
of `millis()`; the result is the new `lastFrame` and the new game state. -/
def flappyPoll (rnd : Nat → Nat) (lastFrame : Nat) (s : FlappyState) (t1 t2 : Nat)
    (joy1 joy2 : Int) : Nat × FlappyState :=
  if elapsed t1 lastFrame > ulong s.flappySpeed then (t2, flappyFrame rnd s joy1 joy2)
  else (lastFrame, s)

/-- Lines 160-161 and the frame they guard, for `playSnake`. -/
def snakePoll (rnd : Nat → Nat) (lastFrame : Nat) (s : SnakeState) (t1 t2 : Nat)
    (joyX joyY : Int) : Nat × SnakeState :=
  if elapsed t1 lastFrame > frameDelay then (t2, snakeFrame rnd s joyX joyY)
  else (lastFrame, s)

/-- Lines 206-207 and the frame they guard, for `playPong`. -/
def pongPoll (lastFrame : Nat) (s : PongState) (t1 t2 : Nat) (joyY : Int) : Nat × PongState :=
  if elapsed t1 lastFrame > frameDelay then (t2, pongFrame s joyY)
  else (lastFrame, s)

/-! ## High scores and the EEPROM (lines 18-21, 69-71, 143-146, 185-188, 222-225) -/

/-- The three high scores, the EEPROM cells (bytes) and the sequence of
`EEPROM.write` calls made so far (address and byte, oldest first). -/
structure Store where
  highScoreFlappy : Int
  highScoreSnake : Int
  highScorePong : Int
  eeprom : List Nat
  writes : List (Nat × Nat)
  deriving DecidableEq

/-- Conversion of an `int` argument to the `uint8_t` parameter of
`EEPROM.write`. -/
def toByte (v : Int) : Nat := (v % 256).toNat

/-- The call `EEPROM.write(addr, v)`. -/
def eepromWrite (st : Store) (addr : Nat) (v : Int) : Store :=
  { st with
    eeprom := st.eeprom.set addr (toByte v)
    writes := st.writes ++ [(addr, toByte v)] }

/-- The call `EEPROM.read(addr)`. -/
def eepromRead (st : Store) (addr : Nat) : Int := (st.eeprom.getD addr 0 : Nat)

/-- Lines 69-71: the high scores are loaded at boot. -/
def setup (st : Store) : Store :=
  { st with
    highScoreFlappy := eepromRead st 0
    highScoreSnake := eepromRead st 1
    highScorePong := eepromRead st 2 }

/-- Lines 143-146: the end of a Flyer session. -/
def flappyEnd (st : Store) (flappyScore : Int) : Store :=
  if flappyScore > st.highScoreFlappy then
    { eepromWrite st 0 flappyScore with highScoreFlappy := flappyScore }
  else st

/-- Lines 185-188: the end of a Snake session. -/
def snakeEnd (st : Store) (snakeScore : Int) : Store :=
  if snakeScore > st.highScoreSnake then
    { eepromWrite st 1 snakeScore with highScoreSnake := snakeScore }
  else st

/-- Lines 222-225: the end of a Paddle-Ball session. -/
def pongEnd (st : Store) (pongScore : Int) : Store :=
  if pongScore > st.highScorePong then
    { eepromWrite st 2 pongScore with highScorePong := pongScore }
  else st

/-! ## Menu (lines 15-16, 86-88) -/

/-- Lines 86-88: the menu update for the one sample `joyVal` of the vertical
axis.  The operator `%` of C truncates towards zero (`Int.tmod`). -/
def menuUpdate (selectedGame joyVal : Int) : Int :=
  let s1 := if joyVal < 400 then (selectedGame + 1).tmod totalGames else selectedGame
  if joyVal > 600 then (s1 - 1 + totalGames).tmod totalGames else s1

/-! ## Concrete states and inputs used by the evaluations below -/

/-- The Snake globals as the initialisers of lines 44-50 leave them at boot
(the arrays zero-initialised, the food at (0,0)). -/
def snakeBoot : SnakeState :=
  { snakeX := List.replicate 16 0
    snakeY := List.replicate 16 0
    snakeLength := 3
    foodX := 0
    foodY := 0
    dirX := 1
    dirY := 0
    snakeScore := 0
    snakeOver := false
    seed := 0 }

/-- A sequence of raw random values that puts every food one cell ahead of the
head on the path (6,0) … (15,0), (15,1), (14,1), (13,1), (12,1). -/
def feedAhead (k : Nat) : Nat :=
  [6, 0, 7, 0, 8, 0, 9, 0, 10, 0, 11, 0, 12, 0, 13, 0, 14, 0, 15, 0,
   15, 1, 14, 1, 13, 1, 12, 1, 3, 0].getD k 0

/-- Joystick samples of fourteen frames: nine neutral, one "down" at the right
wall, one "left" in the bottom row, three neutral. -/
def steerAround : List (Int × Int) :=
  List.replicate 9 (512, 512) ++ [(512, 700), (300, 512)] ++ List.replicate 3 (512, 512)

/-- A Snake state of full length 16 travelling left along the bottom row with
the food at (12,1), one cell ahead of the head at (13,1). -/
def snakeFull : SnakeState :=
  { snakeX := [13, 14, 15, 15, 14, 13, 12, 11, 10, 9, 8, 7, 6, 5, 0, 0]
    snakeY := [1, 1, 1, 0, 0, 0, 0, 0, 0, 0, 0, 0, 0, 0, 0, 0]
    snakeLength := 16
    foodX := 12
    foodY := 1
    dirX := -1
    dirY := 0
    snakeScore := 13
    snakeOver := false
    seed := 28 }

/-- A Snake state travelling down, direction (0,1). -/
def snakeDown : SnakeState := { snakeBoot with dirX := 0, dirY := 1 }

/-- The Paddle-Ball globals as the initialisers of lines 53-57 leave them. -/
def pongBoot : PongState :=
  { ballX := 7, ballY := 0, ballVelX := 1, ballVelY := 1, paddleY := 0, pongScore := 0,
    pongOver := false }

/-- The Flyer globals as the initialisers of lines 35-40 leave them at boot. -/
def flappyBoot : FlappyState :=
  { obstacleCols := List.replicate 5 0
    gapRows := List.replicate 5 0
    flappyRow := 0
    flappyScore := 0
    flappySpeed := 400
    flappyOver := false
    seed := 0 }

/-- A store with all high scores 0, three EEPROM cells holding 0 and no write
made yet. -/
def storeZero : Store :=
  { highScoreFlappy := 0, highScoreSnake := 0, highScorePong := 0, eeprom := [0, 0, 0],
    writes := [] }

/-- A Flyer state in session whose last slot stands in column 0 with gap row 1
while the player is in row 0; the slots before it are elsewhere. -/
def flappyCrash : FlappyState :=
  { obstacleCols := [5, 0, 9, 13, 0]
    gapRows := [0, 0, 1, 0, 1]
    flappyRow := 0
    flappyScore := 3
    flappySpeed := 370
    flappyOver := false
    seed := 11 }

/-- A Paddle-Ball state whose ball, at (1,1) moving (-1,-1), is about to pass
the paddle's column. -/
def pongMissing : PongState :=
  { ballX := 1, ballY := 1, ballVelX := -1, ballVelY := -1, paddleY := 1, pongScore := 0,
    pongOver := false }

/-- A Paddle-Ball state whose ball, at (2,1) moving (-1,-1), is about to meet
the paddle in row 0. -/
def pongHitting : PongState :=
  { ballX := 2, ballY := 1, ballVelX := -1, ballVelY := -1, paddleY := 0, pongScore := 0,
    pongOver := false }

/-- A Snake state of length 4 in the top row, travelling right, whose next
move runs the head at (15,0) into the wall. -/
def snakeAtWall : SnakeState :=
  { snakeBoot with snakeX := [15, 14, 13, 12] ++ List.replicate 12 0, snakeLength := 4 }

/-- Sixteen frames with the joystick in the neutral position. -/
def sixteenNeutral : List (Int × Int) := List.replicate 16 (512, 512)

/-! ## Enumeration of the Paddle-Ball sessions

The paddle input distinguishes three levels of the joystick sample only, so the
states a session can be in after `n` frames form a small list that can be
computed level by level. -/

/-- A representative of the level of a joystick sample: 0 below the neutral
band, 1023 above it, 512 inside it. -/
def joyLevel (joyY : Int) : Int :=
  if joyY < 400 then 0 else if joyY > 600 then 1023 else 512

/-- The states that can follow `s` in a session: `s` itself once the session is
over, otherwise the results of a frame for each of the three joystick levels. -/
def pongSucc (s : PongState) : List PongState :=
  if s.pongOver then [s] else [pongFrame s 0, pongFrame s 512, pongFrame s 1023]

/-- The successors of all states of a list. -/
def pongSuccs : List PongState → List PongState
  | [] => []
  | s :: l => pongSucc s ++ pongSuccs l

/-- The successors of all states of a list, without repetitions. -/
def pongNext (l : List PongState) : List PongState := (pongSuccs l).dedup

/-- The states reached from the states of `l` by `n` more steps of a session. -/
def pongIter : Nat → List PongState → List PongState
  | 0, l => l
  | n + 1, l => pongIter n (pongNext l)

/-- The test that during `n` steps from `l` every state has a score of at most
1 and that after the `n` steps every state is over. -/
def pongCheck : Nat → List PongState → Bool
  | 0, l => l.all (fun s => s.pongOver && decide (s.pongScore ≤ 1))
  | n + 1, l => l.all (fun s => decide (s.pongScore ≤ 1)) && pongCheck n (pongNext l)

/-- Raw random values for a Flyer session: gap row 0 for the five initial
slots, then offset 7 and gap row 0 for the first recycle, offset 3 and gap
row 1 for the second, offset 3 and gap row 0 for the third. -/
def respawnClash (k : Nat) : Nat := [0, 0, 0, 0, 0, 4, 0, 0, 1, 0, 0].getD k 0

/-- Twenty-five frames with the joystick in the neutral position. -/
def twentyFiveNeutral : List (Int × Int) := List.replicate 25 (512, 512)

/-- The layout of the slots of a running Flyer session in which at most one
slot has been recycled: before the first recycle the slots stand four columns
apart from slot 0 onwards; after it slot 0 stands at least 16 columns behind
slot 1 and the others four columns apart from slot 1 onwards. -/
def SlotShape (s : FlappyState) : Prop :=
  s.flappyOver = false →
    0 ≤ s.flappyScore ∧
    (s.flappyScore = 0 → ∃ c : Int, 0 ≤ c ∧ s.obstacleCols = [c, c + 4, c + 8, c + 12, c + 16]) ∧
    (s.flappyScore = 1 → ∃ c r : Int, 0 ≤ c ∧ 3 ≤ r ∧
      s.obstacleCols = [c + 13 + r, c, c + 4, c + 8, c + 12])

/-- The random source whose every raw value is 1: every food lands on (1,1). -/
def drawOne (_k : Nat) : Nat := 1

/-- The Snake globals left behind by an earlier session that started from the
boot state, moved to (6,0), turned up and ran into the top wall. -/
def snakeCrashed : SnakeState :=
  snakeRun drawOne (snakeReset drawOne snakeBoot) [(512, 300), (512, 512)]

/-- Raw random values that put the first food at (6,0), the second at (9,0)
and the third at (1,1). -/
def feedTwice (k : Nat) : Nat := [6, 0, 9, 0, 1, 1].getD k 0

/-- The Snake state three neutral frames after the reset from the boot state
with the foods of `feedTwice`: length 4, body (8,0) (7,0) (6,0) (5,0), food
at (9,0). -/
def snakeBeforeGrowth : SnakeState :=
  snakeRun feedTwice (snakeReset feedTwice snakeBoot) (List.replicate 3 (512, 512))

/-- Fifty-one frames with the joystick in the neutral position. -/
def fiftyOneNeutral : List Int := List.replicate 51 512

/-- C1 (evaluation at the failing input): in the well-formed state `snakeFull`
of length 16 = `snakeMaxLength` the moved head lands on the food; the frame
raises the score by 1 and draws a food inside the grid, but leaves
`snakeLength` at 17, which is not `min (16 + 1) snakeMaxLength`. -/
theorem snakeFrame_grows_past_capacity :
    snakeFull.WF ∧ 3 ≤ snakeFull.snakeLength ∧ snakeFull.snakeLength ≤ snakeMaxLength ∧
    (snakeMove snakeFull).snakeX.getD 0 0 = snakeFull.foodX ∧
    (snakeMove snakeFull).snakeY.getD 0 0 = snakeFull.foodY ∧
    (snakeFrame feedAhead snakeFull 512 512).snakeScore = snakeFull.snakeScore + 1 ∧
    (snakeFrame feedAhead snakeFull 512 512).snakeLength = 17 ∧
    (snakeFrame feedAhead snakeFull 512 512).snakeLength ≠
      min (snakeFull.snakeLength + 1) snakeMaxLength := by
  decide

/-- C2 (evaluation at the failing input): fourteen frames after the reset of
`playSnake` from the boot state, with the foods of `feedAhead` and the joystick
samples of `steerAround`, the session is not over and `snakeLength` is 17,
above `snakeMaxLength`; index 16 is then used by the render loop and by the
next shift loop although the arrays have 16 elements. -/
theorem snakeRun_reaches_length_17 :
    (snakeRun feedAhead (snakeReset feedAhead snakeBoot) steerAround).snakeOver = false ∧
    (snakeRun feedAhead (snakeReset feedAhead snakeBoot) steerAround).snakeLength = 17 ∧
    ¬ (snakeRun feedAhead (snakeReset feedAhead snakeBoot) steerAround).snakeLength
        ≤ snakeMaxLength ∧
    (snakeRun feedAhead (snakeReset feedAhead snakeBoot) steerAround).snakeX.length = 16 ∧
    16 ∈ renderIndices (snakeRun feedAhead (snakeReset feedAhead snakeBoot) steerAround) ∧
    16 ∈ shiftIndices (snakeRun feedAhead (snakeReset feedAhead snakeBoot) steerAround) := by
  decide

/-- C3 (evaluation at the failing input): travelling with direction (0,1) and
sampling both axes below the neutral band (0, 0), the turn logic ends with
direction (0,-1), the exact negation of the direction before it. -/
theorem snakeTurn_reverses_on_diagonal :
    snakeDown.dirX = 0 ∧ snakeDown.dirY = 1 ∧
    (snakeTurn snakeDown 0 0).dirX = - snakeDown.dirX ∧
    (snakeTurn snakeDown 0 0).dirY = - snakeDown.dirY := by
  decide

/-! ## Paddle-Ball -/

/-- C4 (evaluation at the failing input): from the reset state of `playPong`
the first frame leaves the ball in row 1, and the second frame, still in
session, leaves it in row 2, outside `[0, lcdRows)`: the bounce step inverts
the velocity and leaves the position where it is. -/
theorem pongRun_row_leaves_grid :
    (pongRun (pongReset pongBoot) [512]).ballY = 1 ∧
    (pongRun (pongReset pongBoot) [512]).pongOver = false ∧
    (pongRun (pongReset pongBoot) [512, 512]).ballY = 2 ∧
    (pongRun (pongReset pongBoot) [512, 512]).ballVelY = -1 ∧
    (pongRun (pongReset pongBoot) [512, 512]).pongOver = false ∧
    ¬ (0 ≤ (pongRun (pongReset pongBoot) [512, 512]).ballY ∧
       (pongRun (pongReset pongBoot) [512, 512]).ballY < lcdRows) := by
  decide

/-! ## Frame pacing -/

/-- C5 (counterexample): with `lastFrame = 0` and the clock at exactly the
interval (150 for Snake and Paddle-Ball, 400 for Flyer) the difference is
`≥ interval`, yet no frame runs: `lastFrame` and the game state are unchanged,
although a frame would have changed the state. -/
theorem poll_not_due_at_exact_interval :
    (150 : Nat) - 0 ≥ frameDelay ∧
    snakePoll feedAhead 0 (snakeReset feedAhead snakeBoot) 150 150 512 512
      = (0, snakeReset feedAhead snakeBoot) ∧
    snakeFrame feedAhead (snakeReset feedAhead snakeBoot) 512 512
      ≠ snakeReset feedAhead snakeBoot ∧
    pongPoll 0 (pongReset pongBoot) 150 150 512 = (0, pongReset pongBoot) ∧
    pongFrame (pongReset pongBoot) 512 ≠ pongReset pongBoot ∧
    ((400 : Nat) : Int) - 0 ≥ (flappyReset feedAhead flappyBoot).flappySpeed ∧
    flappyPoll feedAhead 0 (flappyReset feedAhead flappyBoot) 400 400 512 512
      = (0, flappyReset feedAhead flappyBoot) ∧
    flappyFrame feedAhead (flappyReset feedAhead flappyBoot) 512 512
      ≠ flappyReset feedAhead flappyBoot := by
  decide

/-- C5 (amended): for clock values below `2 ^ 32` and a non-negative interval,
each game loop runs its frame, with `lastFrame` set to the second clock reading,
exactly when the difference `t1 - lastFrame`, taken modulo `2 ^ 32`, is strictly
greater than the interval (`flappySpeed` for Flyer, `frameDelay` for Snake and
Paddle-Ball); otherwise `lastFrame` and the game state are unchanged. -/
theorem poll_due_iff_elapsed_exceeds (rnd : Nat → Nat) (lastFrame t1 t2 : Nat)
    (fs : FlappyState) (ss : SnakeState) (ps : PongState) (j1 j2 : Int)
    (hl : lastFrame < 4294967296) (ht : t1 < 4294967296)
    (h0 : 0 ≤ fs.flappySpeed) (h1 : fs.flappySpeed < 4294967296) :
    flappyPoll rnd lastFrame fs t1 t2 j1 j2 =
      (if fs.flappySpeed < ((t1 : Int) - lastFrame) % 4294967296
       then (t2, flappyFrame rnd fs j1 j2) else (lastFrame, fs)) ∧
    snakePoll rnd lastFrame ss t1 t2 j1 j2 =
      (if (frameDelay : Int) < ((t1 : Int) - lastFrame) % 4294967296
       then (t2, snakeFrame rnd ss j1 j2) else (lastFrame, ss)) ∧
    pongPoll lastFrame ps t1 t2 j1 =
      (if (frameDelay : Int) < ((t1 : Int) - lastFrame) % 4294967296
       then (t2, pongFrame ps j1) else (lastFrame, ps)) := by
  have he : ((elapsed t1 lastFrame : Nat) : Int) = ((t1 : Int) - lastFrame) % 4294967296 := by
    unfold elapsed; omega
  have hu : ((ulong fs.flappySpeed : Nat) : Int) = fs.flappySpeed := by
    unfold ulong; omega
  refine ⟨?_, ?_, ?_⟩
  · unfold flappyPoll
    by_cases h : fs.flappySpeed < ((t1 : Int) - lastFrame) % 4294967296
    · rw [if_pos h, if_pos]; omega
    · rw [if_neg h, if_neg]; omega
  · unfold snakePoll
    by_cases h : (frameDelay : Int) < ((t1 : Int) - lastFrame) % 4294967296
    · rw [if_pos h, if_pos]; omega
    · rw [if_neg h, if_neg]; omega
  · unfold pongPoll
    by_cases h : (frameDelay : Int) < ((t1 : Int) - lastFrame) % 4294967296
    · rw [if_pos h, if_pos]; omega
    · rw [if_neg h, if_neg]; omega

/-- C5 (witness): the amended statement at `lastFrame = 0`, first clock reading
151, second clock reading 152, from the reset states. -/
theorem poll_due_iff_elapsed_exceeds_witness :
    (0 : Nat) < 4294967296 ∧ (151 : Nat) < 4294967296 ∧
    0 ≤ (flappyReset feedAhead flappyBoot).flappySpeed ∧
    (flappyReset feedAhead flappyBoot).flappySpeed < 4294967296 ∧
    (flappyPoll feedAhead 0 (flappyReset feedAhead flappyBoot) 151 152 512 512 =
      (if (flappyReset feedAhead flappyBoot).flappySpeed
            < (((151 : Nat) : Int) - (0 : Nat)) % 4294967296
       then (152, flappyFrame feedAhead (flappyReset feedAhead flappyBoot) 512 512)
       else (0, flappyReset feedAhead flappyBoot)) ∧
    snakePoll feedAhead 0 (snakeReset feedAhead snakeBoot) 151 152 512 512 =
      (if (frameDelay : Int) < (((151 : Nat) : Int) - (0 : Nat)) % 4294967296
       then (152, snakeFrame feedAhead (snakeReset feedAhead snakeBoot) 512 512)
       else (0, snakeReset feedAhead snakeBoot)) ∧
    pongPoll 0 (pongReset pongBoot) 151 152 512 =
      (if (frameDelay : Int) < (((151 : Nat) : Int) - (0 : Nat)) % 4294967296
       then (152, pongFrame (pongReset pongBoot) 512) else (0, pongReset pongBoot))) :=
  ⟨by decide, by decide, by decide, by decide,
    poll_due_iff_elapsed_exceeds feedAhead 0 151 152 (flappyReset feedAhead flappyBoot)
      (snakeReset feedAhead snakeBoot) (pongReset pongBoot) 512 512
      (by decide) (by decide) (by decide) (by decide)⟩

/-! ## High scores -/

/-- C6: at the end of a session of each game, a final score strictly greater
than that game's high score makes exactly one `EEPROM.write`, to that game's
slot (0 Flyer, 1 Snake, 2 Paddle-Ball), and the high score becomes the final
score; a final score less than or equal to it leaves the whole store as it is.
In both cases the two other high scores and every other EEPROM cell are
unchanged. -/
theorem highScore_update (st : Store) (sc : Int) :
    ((st.highScoreFlappy < sc →
        (∃ b, (flappyEnd st sc).writes = st.writes ++ [(0, b)]) ∧
        (flappyEnd st sc).highScoreFlappy = sc) ∧
      (sc ≤ st.highScoreFlappy → flappyEnd st sc = st) ∧
      (flappyEnd st sc).highScoreSnake = st.highScoreSnake ∧
      (flappyEnd st sc).highScorePong = st.highScorePong ∧
      ∀ a, a ≠ 0 → (flappyEnd st sc).eeprom[a]? = st.eeprom[a]?) ∧
    ((st.highScoreSnake < sc →
        (∃ b, (snakeEnd st sc).writes = st.writes ++ [(1, b)]) ∧
        (snakeEnd st sc).highScoreSnake = sc) ∧
      (sc ≤ st.highScoreSnake → snakeEnd st sc = st) ∧
      (snakeEnd st sc).highScoreFlappy = st.highScoreFlappy ∧
      (snakeEnd st sc).highScorePong = st.highScorePong ∧
      ∀ a, a ≠ 1 → (snakeEnd st sc).eeprom[a]? = st.eeprom[a]?) ∧
    ((st.highScorePong < sc →
        (∃ b, (pongEnd st sc).writes = st.writes ++ [(2, b)]) ∧
        (pongEnd st sc).highScorePong = sc) ∧
      (sc ≤ st.highScorePong → pongEnd st sc = st) ∧
      (pongEnd st sc).highScoreFlappy = st.highScoreFlappy ∧
      (pongEnd st sc).highScoreSnake = st.highScoreSnake ∧
      ∀ a, a ≠ 2 → (pongEnd st sc).eeprom[a]? = st.eeprom[a]?) := by
  refine ⟨⟨?_, ?_, ?_, ?_, ?_⟩, ⟨?_, ?_, ?_, ?_, ?_⟩, ⟨?_, ?_, ?_, ?_, ?_⟩⟩
  · intro h
    have h' : sc > st.highScoreFlappy := h
    simp [flappyEnd, eepromWrite, h']
  · intro h
    have h' : ¬ sc > st.highScoreFlappy := not_lt.mpr h
    simp [flappyEnd, h']
  · unfold flappyEnd eepromWrite; split <;> rfl
  · unfold flappyEnd eepromWrite; split <;> rfl
  · intro a ha
    unfold flappyEnd eepromWrite
    split
    · exact List.getElem?_set_ne (Ne.symm ha)
    · rfl
  · intro h
    have h' : sc > st.highScoreSnake := h
    simp [snakeEnd, eepromWrite, h']
  · intro h
    have h' : ¬ sc > st.highScoreSnake := not_lt.mpr h
    simp [snakeEnd, h']
  · unfold snakeEnd eepromWrite; split <;> rfl
  · unfold snakeEnd eepromWrite; split <;> rfl
  · intro a ha
    unfold snakeEnd eepromWrite
    split
    · exact List.getElem?_set_ne (Ne.symm ha)
    · rfl
  · intro h
    have h' : sc > st.highScorePong := h
    simp [pongEnd, eepromWrite, h']
  · intro h
    have h' : ¬ sc > st.highScorePong := not_lt.mpr h
    simp [pongEnd, h']
  · unfold pongEnd eepromWrite; split <;> rfl
  · unfold pongEnd eepromWrite; split <;> rfl
  · intro a ha
    unfold pongEnd eepromWrite
    split
    · exact List.getElem?_set_ne (Ne.symm ha)
    · rfl

/-- C6 (witness): from the all-zero store a final score 5 is written once, to
the game's own slot, and a final score 0 changes nothing. -/
theorem highScore_update_witness :
    (storeZero.highScoreFlappy < 5 ∧
      (∃ b, (flappyEnd storeZero 5).writes = storeZero.writes ++ [(0, b)]) ∧
      (flappyEnd storeZero 5).highScoreFlappy = 5) ∧
    (storeZero.highScoreSnake < 5 ∧
      (∃ b, (snakeEnd storeZero 5).writes = storeZero.writes ++ [(1, b)]) ∧
      (snakeEnd storeZero 5).highScoreSnake = 5) ∧
    (storeZero.highScorePong < 5 ∧
      (∃ b, (pongEnd storeZero 5).writes = storeZero.writes ++ [(2, b)]) ∧
      (pongEnd storeZero 5).highScorePong = 5) ∧
    ((0 : Int) ≤ storeZero.highScoreFlappy ∧ flappyEnd storeZero 0 = storeZero) ∧
    ((0 : Int) ≤ storeZero.highScoreSnake ∧ snakeEnd storeZero 0 = storeZero) ∧
    ((0 : Int) ≤ storeZero.highScorePong ∧ pongEnd storeZero 0 = storeZero) :=
  ⟨⟨by decide, (highScore_update storeZero 5).1.1 (by decide)⟩,
   ⟨by decide, (highScore_update storeZero 5).2.1.1 (by decide)⟩,
   ⟨by decide, (highScore_update storeZero 5).2.2.1 (by decide)⟩,
   ⟨by decide, (highScore_update storeZero 0).1.2.1 (by decide)⟩,
   ⟨by decide, (highScore_update storeZero 0).2.1.2.1 (by decide)⟩,
   ⟨by decide, (highScore_update storeZero 0).2.2.2.1 (by decide)⟩⟩

/-- C7 (counterexample): from the all-zero store a final Flyer score of 256
exceeds the stored high score 0; the byte written to slot 0 is 0, the value
read back at the next boot is 0, and neither is `min 256 255 = 255`. -/
theorem persisted_byte_not_clamped :
    (0 : Int) ≤ 256 ∧ storeZero.highScoreFlappy < 256 ∧
    (flappyEnd storeZero 256).writes = [(0, 0)] ∧
    eepromRead (flappyEnd storeZero 256) 0 = 0 ∧
    (setup (flappyEnd storeZero 256)).highScoreFlappy = 0 ∧
    (0 : Int) ≠ min 256 255 := by
  decide

/-- C7 (amended): for every non-negative final score `sc` that exceeds the
stored high score, the byte written to the game's slot is `sc % 256`, and the
value read back from the slot at the next boot is `sc % 256`; this is `sc`
itself, hence `min sc 255`, whenever `sc ≤ 255`. -/
theorem persisted_byte_is_score_mod_256 (st : Store) (sc : Int)
    (hlen : 3 ≤ st.eeprom.length) (h0 : 0 ≤ sc) :
    (st.highScoreFlappy < sc →
      (flappyEnd st sc).writes = st.writes ++ [(0, (sc % 256).toNat)] ∧
      eepromRead (flappyEnd st sc) 0 = sc % 256 ∧
      (setup (flappyEnd st sc)).highScoreFlappy = sc % 256) ∧
    (st.highScoreSnake < sc →
      (snakeEnd st sc).writes = st.writes ++ [(1, (sc % 256).toNat)] ∧
      eepromRead (snakeEnd st sc) 1 = sc % 256 ∧
      (setup (snakeEnd st sc)).highScoreSnake = sc % 256) ∧
    (st.highScorePong < sc →
      (pongEnd st sc).writes = st.writes ++ [(2, (sc % 256).toNat)] ∧
      eepromRead (pongEnd st sc) 2 = sc % 256 ∧
      (setup (pongEnd st sc)).highScorePong = sc % 256) ∧
    (sc ≤ 255 → sc % 256 = min sc 255) := by
  have hb : (((sc % 256).toNat : Nat) : Int) = sc % 256 := by omega
  refine ⟨?_, ?_, ?_, ?_⟩
  · intro h
    have h' : sc > st.highScoreFlappy := h
    have hl : 0 < st.eeprom.length := by omega
    simp [flappyEnd, eepromWrite, eepromRead, setup, toByte, h', hl, hb]
  · intro h
    have h' : sc > st.highScoreSnake := h
    have hl : 1 < st.eeprom.length := by omega
    simp [snakeEnd, eepromWrite, eepromRead, setup, toByte, h', hl, hb]
  · intro h
    have h' : sc > st.highScorePong := h
    have hl : 2 < st.eeprom.length := by omega
    simp [pongEnd, eepromWrite, eepromRead, setup, toByte, h', hl, hb]
  · intro h
    omega

/-- C7 (witness): the amended statement at the all-zero store and the final
score 300, whose persisted byte is 44. -/
theorem persisted_byte_is_score_mod_256_witness :
    3 ≤ storeZero.eeprom.length ∧ (0 : Int) ≤ 300 ∧ storeZero.highScoreFlappy < 300 ∧
    ((flappyEnd storeZero 300).writes = storeZero.writes ++ [(0, ((300 : Int) % 256).toNat)] ∧
      eepromRead (flappyEnd storeZero 300) 0 = 300 % 256 ∧
      (setup (flappyEnd storeZero 300)).highScoreFlappy = 300 % 256) :=
  ⟨by decide, by decide, by decide,
    (persisted_byte_is_score_mod_256 storeZero 300 (by decide) (by decide)).1 (by decide)⟩

/-! ## Flyer -/

/-- Advancing slot `i` leaves the player's row as it is. -/
theorem obstacleStep_flappyRow (rnd : Nat → Nat) (i : Nat) (s : FlappyState) :
    (obstacleStep rnd i s).flappyRow = s.flappyRow := by
  unfold obstacleStep
  dsimp only
  split <;> rfl

/-- Advancing slot `i` leaves the column of every other slot as it is. -/
theorem obstacleStep_cols_ne (rnd : Nat → Nat) (i k : Nat) (s : FlappyState) (h : i ≠ k) :
    (obstacleStep rnd i s).obstacleCols[k]? = s.obstacleCols[k]? := by
  unfold obstacleStep
  dsimp only
  split
  · rw [List.getElem?_set_ne h, List.getElem?_set_ne h]
  · exact List.getElem?_set_ne h

/-- Advancing slot `i` leaves the gap row of every other slot as it is. -/
theorem obstacleStep_gaps_ne (rnd : Nat → Nat) (i k : Nat) (s : FlappyState) (h : i ≠ k) :
    (obstacleStep rnd i s).gapRows[k]? = s.gapRows[k]? := by
  unfold obstacleStep
  dsimp only
  split
  · exact List.getElem?_set_ne h
  · rfl

/-- The slot loop ends the session when a slot it has still to visit stands in
column 0 with a gap row other than the player's row. -/
theorem obstacleLoop_collides (rnd : Nat → Nat) (k : Nat) (g : Int) :
    ∀ (n i : Nat) (s : FlappyState), i ≤ k → k < i + n →
      s.obstacleCols[k]? = some 0 → s.gapRows[k]? = some g → g ≠ s.flappyRow →
      (obstacleLoop rnd n i s).flappyOver = true := by
  intro n
  induction n with
  | zero => intro i s h1 h2; omega
  | succ n ih =>
    intro i s h1 h2 hc hg hne
    unfold obstacleLoop
    split
    · rfl
    · rename_i hcond
      have hik : i ≠ k := by
        intro hik
        subst hik
        apply hcond
        rw [List.getD_eq_getElem?_getD, List.getD_eq_getElem?_getD, hc, hg]
        exact ⟨rfl, fun h => hne h.symm⟩
      apply ih (i + 1) _ (by omega) (by omega)
      · rw [obstacleStep_cols_ne rnd i k s hik]; exact hc
      · rw [obstacleStep_gaps_ne rnd i k s hik]; exact hg
      · rw [obstacleStep_flappyRow]; exact hne

/-- Sampling the joystick leaves `flappyOver` as it is. -/
theorem flappyInput_flappyOver (s : FlappyState) (j1 j2 : Int) :
    (flappyInput s j1 j2).flappyOver = s.flappyOver := by
  unfold flappyInput
  dsimp only
  split <;> split <;> rfl

/-- C8: if at the start of a frame some slot `k` of the `maxObstacles` slots
has column 0 and a gap row `g` different from the player's row, then
`flappyOver` is true at the end of that frame, for all contents of the other
slots, all random draws and both joystick samples. -/
theorem flappyFrame_collision_immediate (rnd : Nat → Nat) (s : FlappyState) (k : Nat)
    (g j1 j2 : Int) (hk : k < maxObstacles) (hc : s.obstacleCols[k]? = some 0)
    (hg : s.gapRows[k]? = some g) (hne : g ≠ s.flappyRow) :
    (flappyFrame rnd s j1 j2).flappyOver = true := by
  unfold flappyFrame
  rw [flappyInput_flappyOver]
  exact obstacleLoop_collides rnd k g maxObstacles 0 s (Nat.zero_le k) (by omega) hc hg hne

/-- C8 (witness): in `flappyCrash` slot 4 stands in column 0 with gap row 1 and
the player is in row 0; the frame ends the session although slot 1 passes
through its gap and is recycled first and the joystick asks for row 1. -/
theorem flappyFrame_collision_immediate_witness :
    4 < maxObstacles ∧ flappyCrash.obstacleCols[4]? = some 0 ∧
    flappyCrash.gapRows[4]? = some 1 ∧ (1 : Int) ≠ flappyCrash.flappyRow ∧
    (flappyFrame feedAhead flappyCrash 700 700).flappyOver = true :=
  ⟨by decide, by decide, by decide, by decide,
    flappyFrame_collision_immediate feedAhead flappyCrash 4 1 700 700
      (by decide) (by decide) (by decide) (by decide)⟩

/-- Advancing slot `i` keeps the frame interval a multiple of 10 that is at
least 150 and does not raise it. -/
theorem obstacleStep_speed (rnd : Nat → Nat) (i : Nat) (s : FlappyState)
    (h : 150 ≤ s.flappySpeed ∧ s.flappySpeed % 10 = 0) :
    (150 ≤ (obstacleStep rnd i s).flappySpeed ∧ (obstacleStep rnd i s).flappySpeed % 10 = 0) ∧
    (obstacleStep rnd i s).flappySpeed ≤ s.flappySpeed := by
  unfold obstacleStep
  dsimp only
  split
  · dsimp only
    split <;> omega
  · dsimp only
    omega

/-- The slot loop keeps the frame interval a multiple of 10 that is at least
150 and does not raise it, however many slots it recycles. -/
theorem obstacleLoop_speed (rnd : Nat → Nat) :
    ∀ (n i : Nat) (s : FlappyState), 150 ≤ s.flappySpeed ∧ s.flappySpeed % 10 = 0 →
      (150 ≤ (obstacleLoop rnd n i s).flappySpeed ∧
        (obstacleLoop rnd n i s).flappySpeed % 10 = 0) ∧
      (obstacleLoop rnd n i s).flappySpeed ≤ s.flappySpeed := by
  intro n
  induction n with
  | zero => intro i s h; exact ⟨h, le_refl _⟩
  | succ n ih =>
    intro i s h
    unfold obstacleLoop
    split
    · exact ⟨h, le_refl _⟩
    · have h1 := obstacleStep_speed rnd i s h
      have h2 := ih (i + 1) (obstacleStep rnd i s) h1.1
      exact ⟨h2.1, le_trans h2.2 h1.2⟩

/-- Sampling the joystick leaves the frame interval as it is. -/
theorem flappyInput_flappySpeed (s : FlappyState) (j1 j2 : Int) :
    (flappyInput s j1 j2).flappySpeed = s.flappySpeed := by
  unfold flappyInput
  dsimp only
  split <;> split <;> rfl

/-- A frame keeps the frame interval a multiple of 10 that is at least 150 and
does not raise it. -/
theorem flappyFrame_speed (rnd : Nat → Nat) (s : FlappyState) (j1 j2 : Int)
    (h : 150 ≤ s.flappySpeed ∧ s.flappySpeed % 10 = 0) :
    (150 ≤ (flappyFrame rnd s j1 j2).flappySpeed ∧
      (flappyFrame rnd s j1 j2).flappySpeed % 10 = 0) ∧
    (flappyFrame rnd s j1 j2).flappySpeed ≤ s.flappySpeed := by
  unfold flappyFrame
  rw [flappyInput_flappySpeed]
  exact obstacleLoop_speed rnd maxObstacles 0 s h

/-- Placing the obstacles leaves the frame interval as it is. -/
theorem flappyPlace_flappySpeed (rnd : Nat → Nat) :
    ∀ (n i : Nat) (s : FlappyState), (flappyPlace rnd n i s).flappySpeed = s.flappySpeed := by
  intro n
  induction n with
  | zero => intro i s; rfl
  | succ n ih => intro i s; unfold flappyPlace; rw [ih]

/-- The reset sets the frame interval to 400. -/
theorem flappyReset_flappySpeed (rnd : Nat → Nat) (prev : FlappyState) :
    (flappyReset rnd prev).flappySpeed = 400 := by
  unfold flappyReset
  rw [flappyPlace_flappySpeed]

/-- A session keeps the frame interval a multiple of 10 that is at least 150
and never above the interval it started with. -/
theorem flappyRun_speed (rnd : Nat → Nat) :
    ∀ (js : List (Int × Int)) (s : FlappyState),
      150 ≤ s.flappySpeed ∧ s.flappySpeed % 10 = 0 →
      (150 ≤ (flappyRun rnd s js).flappySpeed ∧ (flappyRun rnd s js).flappySpeed % 10 = 0) ∧
      (flappyRun rnd s js).flappySpeed ≤ s.flappySpeed := by
  intro js
  induction js with
  | nil => intro s h; exact ⟨h, le_refl _⟩
  | cons j js ih =>
    intro s h
    unfold flappyRun
    split
    · exact ⟨h, le_refl _⟩
    · have h1 := flappyFrame_speed rnd s j.1 j.2 h
      have h2 := ih (flappyFrame rnd s j.1 j.2) h1.1
      exact ⟨h2.1, le_trans h2.2 h1.2⟩

/-- A session fed one more pair of samples is the session so far followed by
one more frame, unless it is over. -/
theorem flappyRun_snoc (rnd : Nat → Nat) (j : Int × Int) :
    ∀ (js : List (Int × Int)) (s : FlappyState),
      flappyRun rnd s (js ++ [j]) =
        if (flappyRun rnd s js).flappyOver then flappyRun rnd s js
        else flappyFrame rnd (flappyRun rnd s js) j.1 j.2 := by
  intro js
  induction js with
  | nil => intro s; simp [flappyRun]
  | cons i js ih =>
    intro s
    by_cases h : s.flappyOver = true
    · simp [flappyRun, h]
    · simp [flappyRun, h, ih]

/-- C9: in every Flyer session (any prior state, random draws and joystick
samples, any number of frames from the reset) the frame interval `flappySpeed`
is at least 150 and at most the initial 400; any further frame, whatever it
recycles, leaves it at least 150 and not greater than before; and the session
extended by one more due frame has an interval not greater than before. -/
theorem flappySpeed_never_increases_floor_150 (rnd : Nat → Nat) (prev : FlappyState)
    (js : List (Int × Int)) (j : Int × Int) :
    150 ≤ (flappyRun rnd (flappyReset rnd prev) js).flappySpeed ∧
    (flappyRun rnd (flappyReset rnd prev) js).flappySpeed ≤ 400 ∧
    150 ≤ (flappyFrame rnd (flappyRun rnd (flappyReset rnd prev) js) j.1 j.2).flappySpeed ∧
    (flappyFrame rnd (flappyRun rnd (flappyReset rnd prev) js) j.1 j.2).flappySpeed
      ≤ (flappyRun rnd (flappyReset rnd prev) js).flappySpeed ∧
    (flappyRun rnd (flappyReset rnd prev) (js ++ [j])).flappySpeed
      ≤ (flappyRun rnd (flappyReset rnd prev) js).flappySpeed := by
  have h0 : 150 ≤ (flappyReset rnd prev).flappySpeed ∧
      (flappyReset rnd prev).flappySpeed % 10 = 0 := by
    rw [flappyReset_flappySpeed]; decide
  have hr := flappyRun_speed rnd js (flappyReset rnd prev) h0
  have hf := flappyFrame_speed rnd (flappyRun rnd (flappyReset rnd prev) js) j.1 j.2 hr.1
  refine ⟨hr.1.1, ?_, hf.1.1, hf.2, ?_⟩
  · have := hr.2
    rw [flappyReset_flappySpeed] at this
    exact this
  · rw [flappyRun_snoc]
    split
    · exact le_refl _
    · exact hf.2

/-! ## Paddle-Ball: hit and miss -/

/-- The vertical bounce changes nothing but `ballVelY`. -/
theorem pongBounce_fields (s : PongState) :
    (pongBounce s).ballX = s.ballX ∧ (pongBounce s).ballY = s.ballY ∧
    (pongBounce s).ballVelX = s.ballVelX ∧ (pongBounce s).paddleY = s.paddleY ∧
    (pongBounce s).pongScore = s.pongScore ∧ (pongBounce s).pongOver = s.pongOver := by
  unfold pongBounce
  split <;> exact ⟨rfl, rfl, rfl, rfl, rfl, rfl⟩

/-- The paddle test changes neither the ball's position nor `pongOver`. -/
theorem pongHit_fields (s : PongState) :
    (pongHit s).ballX = s.ballX ∧ (pongHit s).pongOver = s.pongOver := by
  unfold pongHit
  split <;> exact ⟨rfl, rfl⟩

/-- A ball in column 1 and in the paddle's row is returned and scores. -/
theorem pongHit_of_hit (s : PongState) (hx : s.ballX = 1) (hy : s.ballY = s.paddleY) :
    (pongHit s).ballVelX = - s.ballVelX ∧ (pongHit s).pongScore = s.pongScore + 1 := by
  unfold pongHit
  rw [if_pos ⟨hx, hy⟩]
  exact ⟨by dsimp only; omega, rfl⟩

/-- The miss test changes nothing but `pongOver`, sets it for a column `≤ 0`
and leaves it otherwise. -/
theorem pongMiss_fields (s : PongState) :
    (pongMiss s).ballX = s.ballX ∧ (pongMiss s).ballVelX = s.ballVelX ∧
    (pongMiss s).pongScore = s.pongScore ∧
    (s.ballX ≤ 0 → (pongMiss s).pongOver = true) ∧
    (¬ s.ballX ≤ 0 → (pongMiss s).pongOver = s.pongOver) := by
  unfold pongMiss
  split
  · rename_i h
    exact ⟨rfl, rfl, rfl, fun _ => rfl, fun hn => absurd h hn⟩
  · rename_i h
    exact ⟨rfl, rfl, rfl, fun hp => absurd hp h, fun _ => rfl⟩

/-- The far-wall test changes nothing but `ballVelX`, and leaves that too
before column `lcdCols - 1`. -/
theorem pongFarWall_fields (s : PongState) :
    (pongFarWall s).pongScore = s.pongScore ∧ (pongFarWall s).pongOver = s.pongOver ∧
    (s.ballX < lcdCols - 1 → (pongFarWall s).ballVelX = s.ballVelX) := by
  unfold pongFarWall
  split
  · rename_i h
    exact ⟨rfl, rfl, fun hn => absurd h (not_le.mpr hn)⟩
  · exact ⟨rfl, rfl, fun _ => rfl⟩

/-- The paddle input changes nothing but `paddleY`. -/
theorem pongInput_fields (s : PongState) (joyY : Int) :
    (pongInput s joyY).ballVelX = s.ballVelX ∧ (pongInput s joyY).pongScore = s.pongScore ∧
    (pongInput s joyY).pongOver = s.pongOver := by
  unfold pongInput
  dsimp only
  split <;> split <;> exact ⟨rfl, rfl, rfl⟩

/-- C10: in one frame of Paddle-Ball, if the advanced ball is in a column `≤ 0`
then `pongOver` is set; if the advanced ball is in column 1 and in the paddle's
row (and the session was running), then `ballVelX` is negated, `pongScore`
grows by exactly 1 and `pongOver` stays false. -/
theorem pongFrame_hit_and_miss (s : PongState) (joyY : Int) :
    ((pongAdvance s).ballX ≤ 0 → (pongFrame s joyY).pongOver = true) ∧
    ((pongAdvance s).ballX = 1 → (pongAdvance s).ballY = s.paddleY → s.pongOver = false →
      (pongFrame s joyY).ballVelX = - s.ballVelX ∧
      (pongFrame s joyY).pongScore = s.pongScore + 1 ∧
      (pongFrame s joyY).pongOver = false) := by
  have hB := pongBounce_fields (pongAdvance s)
  have hH := pongHit_fields (pongBounce (pongAdvance s))
  have hM := pongMiss_fields (pongHit (pongBounce (pongAdvance s)))
  have hF := pongFarWall_fields (pongMiss (pongHit (pongBounce (pongAdvance s))))
  have hI := pongInput_fields (pongFarWall (pongMiss (pongHit (pongBounce (pongAdvance s))))) joyY
  have hbx : (pongHit (pongBounce (pongAdvance s))).ballX = (pongAdvance s).ballX := by
    rw [hH.1, hB.1]
  unfold pongFrame
  constructor
  · intro h
    rw [hI.2.2, hF.2.1]
    exact hM.2.2.2.1 (by rw [hbx]; exact h)
  · intro hx hy ho
    have hhit := pongHit_of_hit (pongBounce (pongAdvance s)) (by rw [hB.1]; exact hx)
      (by rw [hB.2.1, hB.2.2.2.1]; exact hy)
    have hnot : ¬ (pongHit (pongBounce (pongAdvance s))).ballX ≤ 0 := by
      rw [hbx, hx]; decide
    have hlt : (pongMiss (pongHit (pongBounce (pongAdvance s)))).ballX < lcdCols - 1 := by
      rw [hM.1, hbx, hx]; decide
    refine ⟨?_, ?_, ?_⟩
    · rw [hI.1, hF.2.2 hlt, hM.2.1, hhit.1, hB.2.2.1]
      rfl
    · rw [hI.2.1, hF.1, hM.2.2.1, hhit.2, hB.2.2.2.2.1]
      rfl
    · rw [hI.2.2, hF.2.1, hM.2.2.2.2 hnot, hH.2, hB.2.2.2.2.2]
      exact ho

/-- C10 (witness): `pongMissing` ends the session; `pongHitting` returns the
ball, scores 1 and goes on. -/
theorem pongFrame_hit_and_miss_witness :
    ((pongAdvance pongMissing).ballX ≤ 0 ∧ (pongFrame pongMissing 512).pongOver = true) ∧
    ((pongAdvance pongHitting).ballX = 1 ∧ (pongAdvance pongHitting).ballY = pongHitting.paddleY ∧
      pongHitting.pongOver = false ∧
      (pongFrame pongHitting 512).ballVelX = - pongHitting.ballVelX ∧
      (pongFrame pongHitting 512).pongScore = pongHitting.pongScore + 1 ∧
      (pongFrame pongHitting 512).pongOver = false) :=
  ⟨⟨by decide, (pongFrame_hit_and_miss pongMissing 512).1 (by decide)⟩,
   ⟨by decide, by decide, by decide,
    (pongFrame_hit_and_miss pongHitting 512).2 (by decide) (by decide) (by decide)⟩⟩

/-! ## Snake: termination, turns, motion -/

/-- The wall test changes nothing but `snakeOver`. -/
theorem snakeWall_eq (s : SnakeState) :
    snakeWall s = { s with snakeOver := (snakeWall s).snakeOver } := by
  unfold snakeWall
  split <;> rfl

/-- The self-collision loop changes nothing but `snakeOver`. -/
theorem snakeSelf_eq :
    ∀ (n i : Nat) (s : SnakeState),
      snakeSelf n i s = { s with snakeOver := (snakeSelf n i s).snakeOver } := by
  intro n
  induction n with
  | zero => intro i s; rfl
  | succ n ih =>
    intro i s
    unfold snakeSelf
    split
    · rw [ih]
    · rw [ih]

/-- The self-collision loop sets `snakeOver` exactly when it was set already or
one of the segments it visits lies under the head. -/
theorem snakeSelf_over_iff :
    ∀ (n i : Nat) (s : SnakeState),
      (snakeSelf n i s).snakeOver = true ↔
        (s.snakeOver = true ∨ ∃ k, i ≤ k ∧ k < i + n ∧
          s.snakeX.getD 0 0 = s.snakeX.getD k 0 ∧ s.snakeY.getD 0 0 = s.snakeY.getD k 0) := by
  intro n
  induction n with
  | zero =>
    intro i s
    unfold snakeSelf
    constructor
    · intro h; exact Or.inl h
    · rintro (h | ⟨k, h1, h2, _⟩)
      · exact h
      · omega
  | succ n ih =>
    intro i s
    unfold snakeSelf
    rw [ih]
    by_cases hc : s.snakeX.getD 0 0 = s.snakeX.getD i 0 ∧ s.snakeY.getD 0 0 = s.snakeY.getD i 0
    · rw [if_pos hc]
      constructor
      · intro _
        exact Or.inr ⟨i, le_refl i, by omega, hc⟩
      · intro _
        exact Or.inl rfl
    · rw [if_neg hc]
      constructor
      · rintro (h | ⟨k, h1, h2, h3⟩)
        · exact Or.inl h
        · exact Or.inr ⟨k, by omega, by omega, h3⟩
      · rintro (h | ⟨k, h1, h2, h3⟩)
        · exact Or.inl h
        · by_cases hk : k = i
          · subst hk; exact absurd h3 hc
          · exact Or.inr ⟨k, by omega, by omega, h3⟩

/-- The food capture leaves `snakeOver` and the body arrays as they are. -/
theorem snakeEat_keeps (rnd : Nat → Nat) (s : SnakeState) :
    (snakeEat rnd s).snakeOver = s.snakeOver ∧ (snakeEat rnd s).snakeX = s.snakeX ∧
    (snakeEat rnd s).snakeY = s.snakeY ∧ (snakeEat rnd s).dirX = s.dirX ∧
    (snakeEat rnd s).dirY = s.dirY := by
  unfold snakeEat
  split <;> exact ⟨rfl, rfl, rfl, rfl, rfl⟩

/-- The turn logic changes nothing but the direction. -/
theorem snakeTurn_eq (s : SnakeState) (joyX joyY : Int) :
    snakeTurn s joyX joyY =
      { s with dirX := (snakeTurn s joyX joyY).dirX, dirY := (snakeTurn s joyX joyY).dirY } := by
  unfold snakeTurn
  dsimp only
  split <;> split <;> split <;> split <;> rfl

/-- The move changes nothing but the body arrays. -/
theorem snakeMove_eq (s : SnakeState) :
    snakeMove s = { s with snakeX := (snakeMove s).snakeX, snakeY := (snakeMove s).snakeY } := by
  rfl

/-- C11: in a frame of a running session on a well-formed state,
`snakeOver` is set in that frame exactly when the moved head is outside
`[0, lcdCols) × [0, lcdRows)` or equals the position, after the move, of a
live segment `i` with `1 ≤ i < snakeLength`. -/
theorem snakeFrame_over_iff (rnd : Nat → Nat) (s : SnakeState) (joyX joyY : Int)
    (_hwf : s.WF) (_hlen : s.snakeLength ≤ snakeMaxLength) (hrun : s.snakeOver = false) :
    (snakeFrame rnd s joyX joyY).snakeOver = true ↔
      (((snakeMove s).snakeX.getD 0 0 < 0 ∨ (snakeMove s).snakeX.getD 0 0 ≥ lcdCols ∨
          (snakeMove s).snakeY.getD 0 0 < 0 ∨ (snakeMove s).snakeY.getD 0 0 ≥ lcdRows) ∨
        ∃ i, 1 ≤ i ∧ i < s.snakeLength ∧
          (snakeMove s).snakeX.getD 0 0 = (snakeMove s).snakeX.getD i 0 ∧
          (snakeMove s).snakeY.getD 0 0 = (snakeMove s).snakeY.getD i 0) := by
  have hT : (snakeFrame rnd s joyX joyY).snakeOver = (snakeAdvance rnd s).snakeOver := by
    unfold snakeFrame
    rw [snakeTurn_eq]
  have hE : (snakeAdvance rnd s).snakeOver =
      (snakeSelf ((snakeWall (snakeMove s)).snakeLength - 1) 1
        (snakeWall (snakeMove s))).snakeOver := by
    unfold snakeAdvance
    exact (snakeEat_keeps rnd _).1
  have hWx : (snakeWall (snakeMove s)).snakeX = (snakeMove s).snakeX := by
    rw [snakeWall_eq]
  have hWy : (snakeWall (snakeMove s)).snakeY = (snakeMove s).snakeY := by
    rw [snakeWall_eq]
  have hWl : (snakeWall (snakeMove s)).snakeLength = s.snakeLength := by
    rw [snakeWall_eq]; rfl
  have hWo : (snakeWall (snakeMove s)).snakeOver = true ↔
      ((snakeMove s).snakeX.getD 0 0 < 0 ∨ (snakeMove s).snakeX.getD 0 0 ≥ lcdCols ∨
        (snakeMove s).snakeY.getD 0 0 < 0 ∨ (snakeMove s).snakeY.getD 0 0 ≥ lcdRows) := by
    have hm : (snakeMove s).snakeOver = false := hrun
    unfold snakeWall
    split
    · rename_i h; exact ⟨fun _ => h, fun _ => rfl⟩
    · rename_i h
      constructor
      · intro ho; rw [hm] at ho; exact absurd ho (by decide)
      · intro hh; exact absurd hh h
  rw [hT, hE, snakeSelf_over_iff, hWo, hWx, hWy, hWl]
  constructor
  · rintro (h | ⟨k, h1, h2, h3⟩)
    · exact Or.inl h
    · exact Or.inr ⟨k, h1, by omega, h3⟩
  · rintro (h | ⟨k, h1, h2, h3⟩)
    · exact Or.inl h
    · exact Or.inr ⟨k, h1, by omega, h3⟩

/-- C11 (witness): `snakeAtWall` is well-formed, of length 4 and running; its
frame moves the head to column 16 and ends the session. -/
theorem snakeFrame_over_iff_witness :
    snakeAtWall.WF ∧ snakeAtWall.snakeLength ≤ snakeMaxLength ∧
    snakeAtWall.snakeOver = false ∧
    ((snakeFrame feedAhead snakeAtWall 512 512).snakeOver = true ↔
      (((snakeMove snakeAtWall).snakeX.getD 0 0 < 0 ∨
          (snakeMove snakeAtWall).snakeX.getD 0 0 ≥ lcdCols ∨
          (snakeMove snakeAtWall).snakeY.getD 0 0 < 0 ∨
          (snakeMove snakeAtWall).snakeY.getD 0 0 ≥ lcdRows) ∨
        ∃ i, 1 ≤ i ∧ i < snakeAtWall.snakeLength ∧
          (snakeMove snakeAtWall).snakeX.getD 0 0 = (snakeMove snakeAtWall).snakeX.getD i 0 ∧
          (snakeMove snakeAtWall).snakeY.getD 0 0 = (snakeMove snakeAtWall).snakeY.getD i 0)) :=
  ⟨by decide, by decide, by decide,
    snakeFrame_over_iff feedAhead snakeAtWall 512 512 (by decide) (by decide) (by decide)⟩

/-- C12: for a unit direction and joystick samples with exactly one axis
outside the neutral band 400..600, a request for the direction opposite to the
current one (`joyX < 400` while travelling (1,0), `joyX > 600` while travelling
(-1,0), `joyY < 400` while travelling (0,1), `joyY > 600` while travelling
(0,-1)) leaves the direction unchanged, and a request for a direction
perpendicular to the current one sets the direction to the requested one. -/
theorem snakeTurn_single_axis (s : SnakeState) (joyX joyY : Int)
    (hdir : (s.dirX = 1 ∧ s.dirY = 0) ∨ (s.dirX = -1 ∧ s.dirY = 0) ∨
      (s.dirX = 0 ∧ s.dirY = 1) ∨ (s.dirX = 0 ∧ s.dirY = -1)) :
    (joyX < 400 → 400 ≤ joyY → joyY ≤ 600 →
      (s.dirX = 1 → ((snakeTurn s joyX joyY).dirX, (snakeTurn s joyX joyY).dirY) = (1, 0)) ∧
      (s.dirX = 0 → ((snakeTurn s joyX joyY).dirX, (snakeTurn s joyX joyY).dirY) = (-1, 0))) ∧
    (joyX > 600 → 400 ≤ joyY → joyY ≤ 600 →
      (s.dirX = -1 → ((snakeTurn s joyX joyY).dirX, (snakeTurn s joyX joyY).dirY) = (-1, 0)) ∧
      (s.dirX = 0 → ((snakeTurn s joyX joyY).dirX, (snakeTurn s joyX joyY).dirY) = (1, 0))) ∧
    (joyY < 400 → 400 ≤ joyX → joyX ≤ 600 →
      (s.dirY = 1 → ((snakeTurn s joyX joyY).dirX, (snakeTurn s joyX joyY).dirY) = (0, 1)) ∧
      (s.dirY = 0 → ((snakeTurn s joyX joyY).dirX, (snakeTurn s joyX joyY).dirY) = (0, -1))) ∧
    (joyY > 600 → 400 ≤ joyX → joyX ≤ 600 →
      (s.dirY = -1 → ((snakeTurn s joyX joyY).dirX, (snakeTurn s joyX joyY).dirY) = (0, -1)) ∧
      (s.dirY = 0 → ((snakeTurn s joyX joyY).dirX, (snakeTurn s joyX joyY).dirY) = (0, 1))) := by
  obtain ⟨sx, sy, len, fx, fy, dx, dy, sc, ov, sd⟩ := s
  dsimp only at hdir
  refine ⟨?_, ?_, ?_, ?_⟩
  all_goals
    intro ha hb hc
    refine ⟨?_, ?_⟩
    all_goals
      intro hd
      dsimp only at hd
      simp only [snakeTurn]
      split_ifs
      all_goals try dsimp only at *
      all_goals try simp only [Prod.mk.injEq]
      all_goals omega

/-- C12 (witness): travelling (1,0) with `joyX = 300` the direction stays
(1,0); travelling (0,1) with `joyX = 300` the direction becomes (-1,0). -/
theorem snakeTurn_single_axis_witness :
    ((snakeBoot.dirX = 1 ∧ snakeBoot.dirY = 0) ∧ (300 : Int) < 400 ∧ (400 : Int) ≤ 512 ∧
      (512 : Int) ≤ 600 ∧
      ((snakeTurn snakeBoot 300 512).dirX, (snakeTurn snakeBoot 300 512).dirY) = (1, 0)) ∧
    ((snakeDown.dirX = 0 ∧ snakeDown.dirY = 1) ∧
      ((snakeTurn snakeDown 300 512).dirX, (snakeTurn snakeDown 300 512).dirY) = (-1, 0)) :=
  ⟨⟨by decide, by decide, by decide, by decide,
    ((snakeTurn_single_axis snakeBoot 300 512 (Or.inl (by decide))).1
      (by decide) (by decide) (by decide)).1 (by decide)⟩,
   ⟨by decide,
    ((snakeTurn_single_axis snakeDown 300 512 (Or.inr (Or.inr (Or.inl (by decide))))).1
      (by decide) (by decide) (by decide)).2 (by decide)⟩⟩

/-! ## Menu -/

/-- C13: for a selection in `[0, totalGames)` and any joystick sample the menu
update stays in `[0, totalGames)`; a sample below 400 maps `s` to
`(s + 1) mod 3`, a sample above 600 maps `s` to `(s - 1) mod 3`, and a sample in
the neutral band leaves `s` unchanged; in particular 2 goes to 0 on "next" and
0 goes to 2 on "previous". -/
theorem menuUpdate_cyclic (s joyVal : Int) (h0 : 0 ≤ s) (h3 : s < totalGames) :
    (0 ≤ menuUpdate s joyVal ∧ menuUpdate s joyVal < totalGames) ∧
    (joyVal < 400 → menuUpdate s joyVal = (s + 1) % 3) ∧
    (joyVal > 600 → menuUpdate s joyVal = (s - 1) % 3) ∧
    (400 ≤ joyVal → joyVal ≤ 600 → menuUpdate s joyVal = s) ∧
    (joyVal < 400 → menuUpdate 2 joyVal = 0) ∧
    (joyVal > 600 → menuUpdate 0 joyVal = 2) := by
  unfold totalGames at h3
  have e1 : (s + 1).tmod 3 = (s + 1) % 3 := Int.tmod_eq_emod (by omega) (by decide)
  have e2 : (s - 1 + 3).tmod 3 = (s - 1 + 3) % 3 := Int.tmod_eq_emod (by omega) (by decide)
  have e3 : ((2 : Int) + 1).tmod 3 = 0 := by decide
  have e4 : ((0 : Int) - 1 + 3).tmod 3 = 2 := by decide
  refine ⟨?_, ?_, ?_, ?_, ?_, ?_⟩
  · simp only [menuUpdate, totalGames]
    split_ifs
    all_goals omega
  · intro h
    have h' : ¬ joyVal > 600 := by omega
    simp only [menuUpdate, totalGames, if_pos h, if_neg h', e1]
  · intro h
    have h' : ¬ joyVal < 400 := by omega
    simp only [menuUpdate, totalGames, if_pos h, if_neg h', e2]
    omega
  · intro ha hb
    have h1 : ¬ joyVal < 400 := by omega
    have h2 : ¬ joyVal > 600 := by omega
    simp only [menuUpdate, totalGames, if_neg h1, if_neg h2]
  · intro h
    have h' : ¬ joyVal > 600 := by omega
    simp only [menuUpdate, totalGames, if_pos h, if_neg h', e3]
  · intro h
    have h' : ¬ joyVal < 400 := by omega
    simp only [menuUpdate, totalGames, if_pos h, if_neg h', e4]

/-- C13 (witness): selection 2 with the sample 100 ("next") becomes 0. -/
theorem menuUpdate_cyclic_witness :
    (0 : Int) ≤ 2 ∧ (2 : Int) < totalGames ∧ (100 : Int) < 400 ∧
    menuUpdate 2 100 = (2 + 1) % 3 ∧ menuUpdate 2 100 = 0 :=
  ⟨by decide, by decide, by decide,
    (menuUpdate_cyclic 2 100 (by decide) (by decide)).2.1 (by decide),
    (menuUpdate_cyclic 2 100 (by decide) (by decide)).2.2.2.2.1 (by decide)⟩

/-! ## Flyer: the first recycle -/

/-- Arduino `random(lo, hi)` with `lo < hi` lies in `[lo, hi)`. -/
theorem random_range (raw : Nat) (lo hi : Int) (h : lo < hi) :
    lo ≤ random raw lo hi ∧ random raw lo hi < hi := by
  unfold random
  rw [if_neg (not_le.mpr h)]
  have h1 : 0 ≤ (raw : Int) % (hi - lo) := Int.emod_nonneg _ (by omega)
  have h2 : (raw : Int) % (hi - lo) < hi - lo := Int.emod_lt_of_pos _ (by omega)
  omega

/-- A list of length 5 is a list of five elements. -/
theorem list_length_five (l : List Int) (h : l.length = 5) :
    ∃ a b c d e, l = [a, b, c, d, e] := by
  rcases l with _ | ⟨a, _ | ⟨b, _ | ⟨c, _ | ⟨d, _ | ⟨e, _ | ⟨f, t⟩⟩⟩⟩⟩⟩
  all_goals simp at h
  exact ⟨a, b, c, d, e, rfl⟩

/-- The reset of `playFlappyBird` on a well-formed state: the slots stand in
columns 16, 20, 24, 28, 32 with five freshly drawn gap rows. -/
theorem flappyReset_eq (rnd : Nat → Nat) (prev : FlappyState) (hwf : prev.WF) :
    flappyReset rnd prev =
      { obstacleCols := [16, 20, 24, 28, 32]
        gapRows := [random (rnd prev.seed) 0 2, random (rnd (prev.seed + 1)) 0 2,
          random (rnd (prev.seed + 2)) 0 2, random (rnd (prev.seed + 3)) 0 2,
          random (rnd (prev.seed + 4)) 0 2]
        flappyRow := 0
        flappyScore := 0
        flappySpeed := 400
        flappyOver := false
        seed := prev.seed + 5 } := by
  obtain ⟨cols, gaps, row, score, speed, over, seed⟩ := prev
  obtain ⟨hc, hg⟩ := hwf
  obtain ⟨a, b, c, d, e, rfl⟩ := list_length_five cols hc
  obtain ⟨a', b', c', d', e', rfl⟩ := list_length_five gaps hg
  rfl

/-- A frame in which every slot stands in a column `≥ 1` moves every slot one
column to the left and changes nothing else but the player's row. -/
theorem obstacleLoop_cruise (rnd : Nat → Nat) (s : FlappyState) (c0 c1 c2 c3 c4 : Int)
    (hc : s.obstacleCols = [c0, c1, c2, c3, c4])
    (h0 : 1 ≤ c0) (h1 : 1 ≤ c1) (h2 : 1 ≤ c2) (h3 : 1 ≤ c3) (h4 : 1 ≤ c4) :
    obstacleLoop rnd maxObstacles 0 s =
      { s with obstacleCols := [c0 - 1, c1 - 1, c2 - 1, c3 - 1, c4 - 1] } := by
  obtain ⟨cols, gaps, row, score, speed, over, seed⟩ := s
  dsimp only at hc
  subst hc
  have n0 : ¬ c0 = 0 := by omega
  have n1 : ¬ c1 = 0 := by omega
  have n2 : ¬ c2 = 0 := by omega
  have n3 : ¬ c3 = 0 := by omega
  have n4 : ¬ c4 = 0 := by omega
  have m0 : ¬ c0 - 1 < 0 := by omega
  have m1 : ¬ c1 - 1 < 0 := by omega
  have m2 : ¬ c2 - 1 < 0 := by omega
  have m3 : ¬ c3 - 1 < 0 := by omega
  have m4 : ¬ c4 - 1 < 0 := by omega
  simp [maxObstacles, obstacleLoop, obstacleStep, n0, n1, n2, n3, n4, m0, m1, m2, m3, m4]

/-- Sampling the joystick changes nothing but the player's row, and leaves a
player in row 0 there when the second sample is not above 600. -/
theorem flappyInput_eq (s : FlappyState) (j1 j2 : Int) :
    flappyInput s j1 j2 = { s with flappyRow := (flappyInput s j1 j2).flappyRow } ∧
    (s.flappyRow = 0 → j2 ≤ 600 → (flappyInput s j1 j2).flappyRow = 0) := by
  unfold flappyInput
  dsimp only
  constructor
  · split <;> split <;> rfl
  · intro h0 h2
    rw [if_neg (by omega)]
    split
    · rfl
    · exact h0

/-- A session of at most as many frames as every slot is columns away from
column 0 only moves the slots to the left; a player in row 0 whose second
samples never exceed 600 stays in row 0. -/
theorem flappyRun_cruise (rnd : Nat → Nat) :
    ∀ (js : List (Int × Int)) (s : FlappyState) (c0 c1 c2 c3 c4 : Int),
      s.obstacleCols = [c0, c1, c2, c3, c4] →
      (js.length : Int) ≤ c0 → (js.length : Int) ≤ c1 → (js.length : Int) ≤ c2 →
      (js.length : Int) ≤ c3 → (js.length : Int) ≤ c4 → s.flappyOver = false →
      (flappyRun rnd s js).obstacleCols =
        [c0 - js.length, c1 - js.length, c2 - js.length, c3 - js.length, c4 - js.length] ∧
      (flappyRun rnd s js).gapRows = s.gapRows ∧
      (flappyRun rnd s js).flappyScore = s.flappyScore ∧
      (flappyRun rnd s js).flappySpeed = s.flappySpeed ∧
      (flappyRun rnd s js).flappyOver = false ∧
      (flappyRun rnd s js).seed = s.seed ∧
      (s.flappyRow = 0 → (∀ j ∈ js, j.2 ≤ 600) → (flappyRun rnd s js).flappyRow = 0) := by
  intro js
  induction js with
  | nil =>
    intro s c0 c1 c2 c3 c4 hc _ _ _ _ _ ho
    simp [flappyRun, hc, ho]
  | cons j js ih =>
    intro s c0 c1 c2 c3 c4 hc h0 h1 h2 h3 h4 ho
    simp only [List.length_cons, Nat.cast_add, Nat.cast_one] at h0 h1 h2 h3 h4 ⊢
    have hL := obstacleLoop_cruise rnd s c0 c1 c2 c3 c4 hc (by omega) (by omega) (by omega)
      (by omega) (by omega)
    have hI := flappyInput_eq (obstacleLoop rnd maxObstacles 0 s) j.1 j.2
    have hF : flappyFrame rnd s j.1 j.2 =
        { s with obstacleCols := [c0 - 1, c1 - 1, c2 - 1, c3 - 1, c4 - 1]
                 flappyRow := (flappyFrame rnd s j.1 j.2).flappyRow } := by
      unfold flappyFrame
      rw [hI.1, hL]
    have hR := ih (flappyFrame rnd s j.1 j.2) (c0 - 1) (c1 - 1) (c2 - 1) (c3 - 1) (c4 - 1)
      (by rw [hF]) (by omega) (by omega) (by omega) (by omega) (by omega)
      (by rw [hF]; exact ho)
    have hrun : flappyRun rnd s (j :: js) = flappyRun rnd (flappyFrame rnd s j.1 j.2) js := by
      simp [flappyRun, ho]
    rw [hrun]
    obtain ⟨r1, r2, r3, r4, r5, r6, r7⟩ := hR
    refine ⟨?_, ?_, ?_, ?_, r5, ?_, ?_⟩
    · rw [r1]
      simp only [List.cons.injEq, and_true]
      refine ⟨?_, ?_, ?_, ?_, ?_⟩ <;> omega
    · rw [r2, hF]
    · rw [r3, hF]
    · rw [r4, hF]
    · rw [r6, hF]
    · intro hrow hall
      apply r7
      · have h600 : j.2 ≤ 600 := hall j (List.mem_cons_self j js)
        have hrow' : (obstacleLoop rnd maxObstacles 0 s).flappyRow = 0 := by
          rw [hL]; exact hrow
        exact hI.2 hrow' h600
      · intro i hi
        exact hall i (List.mem_cons_of_mem j hi)

/-- A frame that starts with slot 0 in column 0, its gap in the player's row,
the other slots in columns `≥ 1` and the interval above 150 recycles slot 0:
new column `lcdCols + random(3, 8)`, new gap row `random(0, 2)`, score plus 1,
interval minus 10; the other slots move one column to the left. -/
theorem obstacleLoop_recycle_first (rnd : Nat → Nat) (s : FlappyState)
    (c1 c2 c3 c4 g0 g1 g2 g3 g4 : Int)
    (hc : s.obstacleCols = [0, c1, c2, c3, c4]) (hg : s.gapRows = [g0, g1, g2, g3, g4])
    (hrow : s.flappyRow = g0) (hs : 150 < s.flappySpeed)
    (h1 : 1 ≤ c1) (h2 : 1 ≤ c2) (h3 : 1 ≤ c3) (h4 : 1 ≤ c4) :
    obstacleLoop rnd maxObstacles 0 s =
      { s with
        obstacleCols := [lcdCols + random (rnd s.seed) 3 8, c1 - 1, c2 - 1, c3 - 1, c4 - 1]
        gapRows := [random (rnd (s.seed + 1)) 0 2, g1, g2, g3, g4]
        flappyScore := s.flappyScore + 1
        flappySpeed := s.flappySpeed - 10
        seed := s.seed + 2 } := by
  obtain ⟨cols, gaps, row, score, speed, over, seed⟩ := s
  dsimp only at hc hg hrow hs
  subst hc hg hrow
  have n1 : ¬ c1 = 0 := by omega
  have n2 : ¬ c2 = 0 := by omega
  have n3 : ¬ c3 = 0 := by omega
  have n4 : ¬ c4 = 0 := by omega
  have m1 : ¬ c1 - 1 < 0 := by omega
  have m2 : ¬ c2 - 1 < 0 := by omega
  have m3 : ¬ c3 - 1 < 0 := by omega
  have m4 : ¬ c4 - 1 < 0 := by omega
  simp [maxObstacles, obstacleLoop, obstacleStep, n1, n2, n3, n4, m1, m2, m3, m4, hs]

/-- C14: from the reset of `playFlappyBird` on a well-formed state, with gap
row 0 drawn for slot 0 and second joystick samples never above 600 (the player
stays in row 0): the reset puts slot 0 in column `lcdCols`; after any `n ≤ 16`
frames the session is running, the score is 0, the interval is 400 and slot 0
stands in column `16 - n`, so in column 0 after 16 frames; the next frame then
raises the score to 1, lowers the interval to 390, respawns slot 0 in column
`lcdCols + random(3, 8)` (an offset in `[3, 8)`) with a gap row
`random(0, 2)` in `[0, lcdRows)`, and leaves the session running. -/
theorem flappy_first_recycle (rnd : Nat → Nat) (prev : FlappyState)
    (js : List (Int × Int)) (j : Int × Int) (hwf : prev.WF)
    (hgap : (flappyReset rnd prev).gapRows[0]? = some 0)
    (hrow : ∀ i ∈ js, i.2 ≤ 600) (hlen : js.length ≤ 16) :
    (flappyReset rnd prev).obstacleCols[0]? = some lcdCols ∧
    (flappyRun rnd (flappyReset rnd prev) js).flappyOver = false ∧
    (flappyRun rnd (flappyReset rnd prev) js).flappyScore = 0 ∧
    (flappyRun rnd (flappyReset rnd prev) js).flappySpeed = 400 ∧
    (flappyRun rnd (flappyReset rnd prev) js).obstacleCols[0]? = some (16 - (js.length : Int)) ∧
    (js.length = 16 →
      (flappyRun rnd (flappyReset rnd prev) js).obstacleCols[0]? = some 0 ∧
      (flappyFrame rnd (flappyRun rnd (flappyReset rnd prev) js) j.1 j.2).flappyScore = 1 ∧
      (flappyFrame rnd (flappyRun rnd (flappyReset rnd prev) js) j.1 j.2).flappySpeed = 390 ∧
      (flappyFrame rnd (flappyRun rnd (flappyReset rnd prev) js) j.1 j.2).obstacleCols[0]? =
        some (lcdCols +
          random (rnd (flappyRun rnd (flappyReset rnd prev) js).seed) 3 8) ∧
      3 ≤ random (rnd (flappyRun rnd (flappyReset rnd prev) js).seed) 3 8 ∧
      random (rnd (flappyRun rnd (flappyReset rnd prev) js).seed) 3 8 < 8 ∧
      (flappyFrame rnd (flappyRun rnd (flappyReset rnd prev) js) j.1 j.2).gapRows[0]? =
        some (random (rnd ((flappyRun rnd (flappyReset rnd prev) js).seed + 1)) 0 2) ∧
      0 ≤ random (rnd ((flappyRun rnd (flappyReset rnd prev) js).seed + 1)) 0 2 ∧
      random (rnd ((flappyRun rnd (flappyReset rnd prev) js).seed + 1)) 0 2 < lcdRows ∧
      (flappyFrame rnd (flappyRun rnd (flappyReset rnd prev) js) j.1 j.2).flappyOver
        = false) := by
  have hR := flappyReset_eq rnd prev hwf
  have hg0 : random (rnd prev.seed) 0 2 = 0 := by
    rw [hR] at hgap
    simpa using hgap
  have hl : (js.length : Int) ≤ 16 := by exact_mod_cast hlen
  obtain ⟨r1, r2, r3, r4, r5, _, r7⟩ :=
    flappyRun_cruise rnd js (flappyReset rnd prev) 16 20 24 28 32 (by rw [hR])
      (by omega) (by omega) (by omega) (by omega) (by omega) (by rw [hR])
  have hrow0 : (flappyRun rnd (flappyReset rnd prev) js).flappyRow = 0 :=
    r7 (by rw [hR]) hrow
  refine ⟨by rw [hR]; rfl, r5, by rw [r3, hR], by rw [r4, hR], by rw [r1]; rfl, ?_⟩
  intro h16
  have h16' : (js.length : Int) = 16 := by exact_mod_cast h16
  have hcols : (flappyRun rnd (flappyReset rnd prev) js).obstacleCols = [0, 4, 8, 12, 16] := by
    rw [r1, h16']; rfl
  have hgaps : (flappyRun rnd (flappyReset rnd prev) js).gapRows =
      [0, random (rnd (prev.seed + 1)) 0 2, random (rnd (prev.seed + 2)) 0 2,
        random (rnd (prev.seed + 3)) 0 2, random (rnd (prev.seed + 4)) 0 2] := by
    rw [r2, hR, hg0]
  have hL := obstacleLoop_recycle_first rnd (flappyRun rnd (flappyReset rnd prev) js)
    4 8 12 16 0 _ _ _ _ hcols hgaps hrow0
    (by rw [r4, hR]; exact (by decide : (150 : Int) < 400))
    (by decide) (by decide) (by decide) (by decide)
  have hI := (flappyInput_eq
    (obstacleLoop rnd maxObstacles 0 (flappyRun rnd (flappyReset rnd prev) js)) j.1 j.2).1
  have hr1 := random_range (rnd (flappyRun rnd (flappyReset rnd prev) js).seed) 3 8 (by decide)
  have hr2 := random_range (rnd ((flappyRun rnd (flappyReset rnd prev) js).seed + 1)) 0 2
    (by decide)
  have fS : (flappyFrame rnd (flappyRun rnd (flappyReset rnd prev) js) j.1 j.2).flappyScore =
      (obstacleLoop rnd maxObstacles 0 (flappyRun rnd (flappyReset rnd prev) js)).flappyScore := by
    unfold flappyFrame; rw [hI]
  have fV : (flappyFrame rnd (flappyRun rnd (flappyReset rnd prev) js) j.1 j.2).flappySpeed =
      (obstacleLoop rnd maxObstacles 0 (flappyRun rnd (flappyReset rnd prev) js)).flappySpeed := by
    unfold flappyFrame; rw [hI]
  have fC : (flappyFrame rnd (flappyRun rnd (flappyReset rnd prev) js) j.1 j.2).obstacleCols =
      (obstacleLoop rnd maxObstacles 0 (flappyRun rnd (flappyReset rnd prev) js)).obstacleCols := by
    unfold flappyFrame; rw [hI]
  have fG : (flappyFrame rnd (flappyRun rnd (flappyReset rnd prev) js) j.1 j.2).gapRows =
      (obstacleLoop rnd maxObstacles 0 (flappyRun rnd (flappyReset rnd prev) js)).gapRows := by
    unfold flappyFrame; rw [hI]
  have fO : (flappyFrame rnd (flappyRun rnd (flappyReset rnd prev) js) j.1 j.2).flappyOver =
      (obstacleLoop rnd maxObstacles 0 (flappyRun rnd (flappyReset rnd prev) js)).flappyOver := by
    unfold flappyFrame; rw [hI]
  refine ⟨by rw [hcols]; rfl, ?_, ?_, ?_, hr1.1, hr1.2, ?_, hr2.1, hr2.2, ?_⟩
  · rw [fS, hL]; dsimp only; rw [r3, hR]; rfl
  · rw [fV, hL]; dsimp only; rw [r4, hR]; rfl
  · rw [fC, hL]; rfl
  · rw [fG, hL]; rfl
  · rw [fO, hL]; exact r5

/-- C14 (witness): from the boot state with all random draws 0 and sixteen
neutral frames, then one more neutral frame. -/
theorem flappy_first_recycle_witness :
    flappyBoot.WF ∧ (flappyReset (fun _ => 0) flappyBoot).gapRows[0]? = some 0 ∧
    (∀ i ∈ sixteenNeutral, i.2 ≤ 600) ∧ sixteenNeutral.length ≤ 16 ∧
    sixteenNeutral.length = 16 ∧
    (flappyRun (fun _ => 0) (flappyReset (fun _ => 0) flappyBoot) sixteenNeutral).flappyScore
      = 0 ∧
    (flappyFrame (fun _ => 0)
      (flappyRun (fun _ => 0) (flappyReset (fun _ => 0) flappyBoot) sixteenNeutral)
      512 512).flappyScore = 1 ∧
    (flappyFrame (fun _ => 0)
      (flappyRun (fun _ => 0) (flappyReset (fun _ => 0) flappyBoot) sixteenNeutral)
      512 512).flappySpeed = 390 :=
  ⟨by decide, by decide, by decide, by decide, by decide,
    (flappy_first_recycle (fun _ => 0) flappyBoot sixteenNeutral (512, 512)
      (by decide) (by decide) (by decide) (by decide)).2.2.1,
    ((flappy_first_recycle (fun _ => 0) flappyBoot sixteenNeutral (512, 512)
      (by decide) (by decide) (by decide) (by decide)).2.2.2.2.2 (by decide)).2.1,
    ((flappy_first_recycle (fun _ => 0) flappyBoot sixteenNeutral (512, 512)
      (by decide) (by decide) (by decide) (by decide)).2.2.2.2.2 (by decide)).2.2.1⟩

/-! ## Snake: motion and food -/

/-- Reading a list after one write. -/
theorem getD_set_eq (a : List Int) (i k : Nat) (v : Int) :
    (a.set i v).getD k 0 = if i = k ∧ i < a.length then v else a.getD k 0 := by
  rw [List.getD_eq_getElem?_getD, List.getD_eq_getElem?_getD, List.getElem?_set]
  by_cases h1 : i = k
  · subst h1
    by_cases h2 : i < a.length
    · simp [h2]
    · have h3 : a[i]? = none := List.getElem?_eq_none (by omega)
      simp [h2, h3]
  · simp [h1]

/-- The shift loop keeps the size of the array. -/
theorem shiftFrom_length : ∀ (n : Nat) (a : List Int), (shiftFrom n a).length = a.length := by
  intro n
  induction n with
  | zero => intro a; rfl
  | succ n ih => intro a; unfold shiftFrom; rw [ih, List.length_set]

/-- The shift loop started at an index inside the array: every element
`1 ≤ k ≤ n` receives the former element `k - 1`, every other element is kept. -/
theorem shiftFrom_getD :
    ∀ (n : Nat) (a : List Int) (k : Nat), n < a.length →
      (shiftFrom n a).getD k 0 = if 1 ≤ k ∧ k ≤ n then a.getD (k - 1) 0 else a.getD k 0 := by
  intro n
  induction n with
  | zero =>
    intro a k _
    unfold shiftFrom
    rw [if_neg (by omega)]
  | succ n ih =>
    intro a k hn
    unfold shiftFrom
    rw [ih _ k (by rw [List.length_set]; omega), getD_set_eq, getD_set_eq]
    by_cases h1 : 1 ≤ k ∧ k ≤ n
    · rw [if_pos h1, if_neg (by omega), if_pos (by omega)]
    · rw [if_neg h1]
      by_cases h2 : k = n + 1
      · subst h2
        rw [if_pos ⟨rfl, hn⟩, if_pos (by omega)]
        rfl
      · rw [if_neg (by omega), if_neg (by omega)]

/-- The state tested by the food capture is the moved state, up to
`snakeOver`. -/
theorem snakeChecks_eq (n : Nat) (s : SnakeState) :
    snakeSelf n 1 (snakeWall (snakeMove s)) =
      { snakeMove s with snakeOver := (snakeSelf n 1 (snakeWall (snakeMove s))).snakeOver } := by
  rw [snakeSelf_eq, snakeWall_eq]

/-- A frame whose moved head lies on the food: the length and the score grow
by 1 and the food is drawn afresh; the body arrays are those of the move. -/
theorem snakeFrame_capture (rnd : Nat → Nat) (s : SnakeState) (joyX joyY : Int)
    (hx : (snakeMove s).snakeX.getD 0 0 = s.foodX)
    (hy : (snakeMove s).snakeY.getD 0 0 = s.foodY) :
    (snakeFrame rnd s joyX joyY).snakeLength = s.snakeLength + 1 ∧
    (snakeFrame rnd s joyX joyY).snakeScore = s.snakeScore + 1 ∧
    (snakeFrame rnd s joyX joyY).foodX = random (rnd s.seed) 0 lcdCols ∧
    (snakeFrame rnd s joyX joyY).foodY = random (rnd (s.seed + 1)) 0 lcdRows ∧
    (snakeFrame rnd s joyX joyY).snakeX = (snakeMove s).snakeX ∧
    (snakeFrame rnd s joyX joyY).snakeY = (snakeMove s).snakeY := by
  unfold snakeFrame
  rw [snakeTurn_eq]
  unfold snakeAdvance
  dsimp only
  rw [snakeChecks_eq]
  unfold snakeEat
  split
  · exact ⟨rfl, rfl, rfl, rfl, rfl, rfl⟩
  · rename_i hc
    exact absurd ⟨hx, hy⟩ hc

/-- A frame whose moved head does not lie on the food keeps the length, the
score and the food; the body arrays are those of the move. -/
theorem snakeFrame_no_capture (rnd : Nat → Nat) (s : SnakeState) (joyX joyY : Int)
    (h : ¬ ((snakeMove s).snakeX.getD 0 0 = s.foodX ∧ (snakeMove s).snakeY.getD 0 0 = s.foodY)) :
    (snakeFrame rnd s joyX joyY).snakeLength = s.snakeLength ∧
    (snakeFrame rnd s joyX joyY).snakeScore = s.snakeScore ∧
    (snakeFrame rnd s joyX joyY).foodX = s.foodX ∧
    (snakeFrame rnd s joyX joyY).foodY = s.foodY ∧
    (snakeFrame rnd s joyX joyY).snakeX = (snakeMove s).snakeX ∧
    (snakeFrame rnd s joyX joyY).snakeY = (snakeMove s).snakeY := by
  unfold snakeFrame
  rw [snakeTurn_eq]
  unfold snakeAdvance
  dsimp only
  rw [snakeChecks_eq]
  unfold snakeEat
  split
  · rename_i hc
    exact absurd hc h
  · exact ⟨rfl, rfl, rfl, rfl, rfl, rfl⟩

/-- The move on a well-formed state of length at most `snakeMaxLength`: the
head advances by the direction and every segment `1 ≤ i < snakeLength` takes
the former position of segment `i - 1`. -/
theorem snakeMove_body (s : SnakeState) (hwf : s.WF) (hlen : s.snakeLength ≤ snakeMaxLength) :
    (snakeMove s).snakeX.getD 0 0 = s.snakeX.getD 0 0 + s.dirX ∧
    (snakeMove s).snakeY.getD 0 0 = s.snakeY.getD 0 0 + s.dirY ∧
    ∀ i, 1 ≤ i → i < s.snakeLength →
      (snakeMove s).snakeX.getD i 0 = s.snakeX.getD (i - 1) 0 ∧
      (snakeMove s).snakeY.getD i 0 = s.snakeY.getD (i - 1) 0 := by
  obtain ⟨hx, hy⟩ := hwf
  unfold snakeMaxLength at hx hy hlen
  have hnx : s.snakeLength - 1 < s.snakeX.length := by omega
  have hny : s.snakeLength - 1 < s.snakeY.length := by omega
  unfold snakeMove
  dsimp only
  refine ⟨?_, ?_, ?_⟩
  · rw [getD_set_eq, if_pos ⟨rfl, by rw [shiftFrom_length]; omega⟩,
      shiftFrom_getD _ _ _ hnx, if_neg (by omega)]
  · rw [getD_set_eq, if_pos ⟨rfl, by rw [shiftFrom_length]; omega⟩,
      shiftFrom_getD _ _ _ hny, if_neg (by omega)]
  · intro i h1 h2
    constructor
    · rw [getD_set_eq, if_neg (by omega), shiftFrom_getD _ _ _ hnx, if_pos (by omega)]
    · rw [getD_set_eq, if_neg (by omega), shiftFrom_getD _ _ _ hny, if_pos (by omega)]

/-- The reset of `playSnake`, field by field. -/
theorem snakeReset_eq (rnd : Nat → Nat) (prev : SnakeState) :
    snakeReset rnd prev =
      { snakeX := prev.snakeX.set 0 5
        snakeY := prev.snakeY.set 0 0
        snakeLength := 3
        foodX := random (rnd prev.seed) 0 lcdCols
        foodY := random (rnd (prev.seed + 1)) 0 lcdRows
        dirX := 1
        dirY := 0
        snakeScore := 0
        snakeOver := false
        seed := prev.seed + 2 } := by
  rfl

/-- C15: from the reset of `playSnake` on a well-formed state (length 3, head
(5,0), direction (1,0), score 0) with the food at (6,0), one frame leaves the
head at (6,0), `snakeLength` 4, `snakeScore` 1 and the food at the position
given by the next two random draws. -/
theorem snake_first_capture (rnd : Nat → Nat) (prev : SnakeState) (joyX joyY : Int)
    (hwf : prev.WF) (hfx : (snakeReset rnd prev).foodX = 6)
    (hfy : (snakeReset rnd prev).foodY = 0) :
    ((snakeReset rnd prev).snakeLength = 3 ∧ (snakeReset rnd prev).snakeX.getD 0 0 = 5 ∧
      (snakeReset rnd prev).snakeY.getD 0 0 = 0 ∧ (snakeReset rnd prev).dirX = 1 ∧
      (snakeReset rnd prev).dirY = 0 ∧ (snakeReset rnd prev).snakeScore = 0) ∧
    ((snakeFrame rnd (snakeReset rnd prev) joyX joyY).snakeX.getD 0 0 = 6 ∧
      (snakeFrame rnd (snakeReset rnd prev) joyX joyY).snakeY.getD 0 0 = 0 ∧
      (snakeFrame rnd (snakeReset rnd prev) joyX joyY).snakeLength = 4 ∧
      (snakeFrame rnd (snakeReset rnd prev) joyX joyY).snakeScore = 1 ∧
      (snakeFrame rnd (snakeReset rnd prev) joyX joyY).foodX =
        random (rnd (snakeReset rnd prev).seed) 0 lcdCols ∧
      (snakeFrame rnd (snakeReset rnd prev) joyX joyY).foodY =
        random (rnd ((snakeReset rnd prev).seed + 1)) 0 lcdRows) := by
  obtain ⟨hx, hy⟩ := hwf
  unfold snakeMaxLength at hx hy
  have hX : (snakeReset rnd prev).snakeX.getD 0 0 = 5 := by
    rw [snakeReset_eq]; dsimp only
    rw [getD_set_eq, if_pos ⟨rfl, by omega⟩]
  have hY : (snakeReset rnd prev).snakeY.getD 0 0 = 0 := by
    rw [snakeReset_eq]; dsimp only
    rw [getD_set_eq, if_pos ⟨rfl, by omega⟩]
  have hwf0 : (snakeReset rnd prev).WF := by
    rw [snakeReset_eq]
    exact ⟨by dsimp only; rw [List.length_set]; exact hx,
      by dsimp only; rw [List.length_set]; exact hy⟩
  have hM := snakeMove_body (snakeReset rnd prev) hwf0 (by rw [snakeReset_eq]; exact (by decide : 3 ≤ snakeMaxLength))
  have hdx : (snakeReset rnd prev).dirX = 1 := by rw [snakeReset_eq]
  have hdy : (snakeReset rnd prev).dirY = 0 := by rw [snakeReset_eq]
  have hmx : (snakeMove (snakeReset rnd prev)).snakeX.getD 0 0 = 6 := by
    rw [hM.1, hX, hdx]; rfl
  have hmy : (snakeMove (snakeReset rnd prev)).snakeY.getD 0 0 = 0 := by
    rw [hM.2.1, hY, hdy]; rfl
  have hC := snakeFrame_capture rnd (snakeReset rnd prev) joyX joyY
    (by rw [hmx, hfx]) (by rw [hmy, hfy])
  obtain ⟨c1, c2, c3, c4, c5, c6⟩ := hC
  refine ⟨⟨by rw [snakeReset_eq], hX, hY, hdx, hdy, by rw [snakeReset_eq]⟩,
    ?_, ?_, ?_, ?_, c3, c4⟩
  · rw [c5]; exact hmx
  · rw [c6]; exact hmy
  · rw [c1, snakeReset_eq]
  · rw [c2, snakeReset_eq]; rfl

/-- C15 (witness): from the boot state with the draws of `feedAhead`, which put
the first food at (6,0) and the second at (7,0). -/
theorem snake_first_capture_witness :
    snakeBoot.WF ∧ (snakeReset feedAhead snakeBoot).foodX = 6 ∧
    (snakeReset feedAhead snakeBoot).foodY = 0 ∧
    ((snakeFrame feedAhead (snakeReset feedAhead snakeBoot) 512 512).snakeX.getD 0 0 = 6 ∧
      (snakeFrame feedAhead (snakeReset feedAhead snakeBoot) 512 512).snakeY.getD 0 0 = 0 ∧
      (snakeFrame feedAhead (snakeReset feedAhead snakeBoot) 512 512).snakeLength = 4 ∧
      (snakeFrame feedAhead (snakeReset feedAhead snakeBoot) 512 512).snakeScore = 1 ∧
      (snakeFrame feedAhead (snakeReset feedAhead snakeBoot) 512 512).foodX =
        random (feedAhead (snakeReset feedAhead snakeBoot).seed) 0 lcdCols ∧
      (snakeFrame feedAhead (snakeReset feedAhead snakeBoot) 512 512).foodY =
        random (feedAhead ((snakeReset feedAhead snakeBoot).seed + 1)) 0 lcdRows) :=
  ⟨by decide, by decide, by decide,
    (snake_first_capture feedAhead snakeBoot 512 512 (by decide) (by decide) (by decide)).2⟩

/-! ## Flyer: the input step -/

/-- The paddle input depends on the level of the sample only. -/
theorem pongInput_level (s : PongState) (joyY : Int) :
    pongInput s joyY = pongInput s (joyLevel joyY) := by
  by_cases h1 : joyY < 400
  · have h2 : ¬ joyY > 600 := by omega
    simp [pongInput, joyLevel, h1, h2]
  · by_cases h2 : joyY > 600
    · simp [pongInput, joyLevel, h1, h2]
    · simp [pongInput, joyLevel, h1, h2]

/-- A frame of a running session leads to one of the successors. -/
theorem pongFrame_mem_succ (s : PongState) (joyY : Int) (h : s.pongOver = false) :
    pongFrame s joyY ∈ pongSucc s := by
  have hf : pongFrame s joyY = pongFrame s (joyLevel joyY) := by
    unfold pongFrame
    rw [pongInput_level]
  rw [hf]
  have hs : pongSucc s = [pongFrame s 0, pongFrame s 512, pongFrame s 1023] := by
    unfold pongSucc
    rw [h]
    rfl
  rw [hs]
  have hl : joyLevel joyY = 0 ∨ joyLevel joyY = 512 ∨ joyLevel joyY = 1023 := by
    unfold joyLevel
    split
    · exact Or.inl rfl
    · split
      · exact Or.inr (Or.inr rfl)
      · exact Or.inr (Or.inl rfl)
  rcases hl with e | e | e <;> rw [e] <;> simp

/-- The successors of a member are among the successors of the list. -/
theorem mem_pongNext (x s : PongState) :
    ∀ (l : List PongState), s ∈ l → x ∈ pongSucc s → x ∈ pongNext l := by
  intro l hs hx
  unfold pongNext
  rw [List.mem_dedup]
  induction l with
  | nil => cases hs
  | cons a l ih =>
    unfold pongSuccs
    rw [List.mem_append]
    rcases List.mem_cons.mp hs with h | h
    · subst h; exact Or.inl hx
    · exact Or.inr (ih h)

/-- A finished state stays among the reached states. -/
theorem over_mem_pongIter (s : PongState) (ho : s.pongOver = true) :
    ∀ (k : Nat) (l : List PongState), s ∈ l → s ∈ pongIter k l := by
  intro k
  induction k with
  | zero => intro l h; exact h
  | succ k ih =>
    intro l h
    unfold pongIter
    apply ih
    apply mem_pongNext s s l h
    unfold pongSucc
    rw [ho]
    simp

/-- A session of `n` joystick samples ends in one of the states enumerated for
`n` steps. -/
theorem pongRun_mem_pongIter :
    ∀ (js : List Int) (l : List PongState) (s : PongState), s ∈ l →
      pongRun s js ∈ pongIter js.length l := by
  intro js
  induction js with
  | nil => intro l s h; exact h
  | cons j js ih =>
    intro l s h
    unfold pongRun
    by_cases ho : s.pongOver = true
    · rw [if_pos ho]
      exact over_mem_pongIter s ho _ l h
    · rw [if_neg ho]
      have hf : s.pongOver = false := by simpa using ho
      exact ih (pongNext l) (pongFrame s j) (mem_pongNext _ s l h (pongFrame_mem_succ s j hf))

/-- What a successful test says about the enumerated states. -/
theorem pongCheck_sound :
    ∀ (n : Nat) (l : List PongState), pongCheck n l = true →
      (∀ s ∈ pongIter n l, s.pongOver = true) ∧
      (∀ k, k ≤ n → ∀ s ∈ pongIter k l, s.pongScore ≤ 1) := by
  intro n
  induction n with
  | zero =>
    intro l h
    unfold pongCheck at h
    rw [List.all_eq_true] at h
    constructor
    · intro s hs
      have := h s hs
      simp at this
      exact this.1
    · intro k hk s hs
      have hk0 : k = 0 := by omega
      subst hk0
      have := h s hs
      simp at this
      exact this.2
  | succ n ih =>
    intro l h
    unfold pongCheck at h
    rw [Bool.and_eq_true, List.all_eq_true] at h
    obtain ⟨h1, h2⟩ := ih (pongNext l) h.2
    constructor
    · intro s hs
      exact h1 s hs
    · intro k hk s hs
      cases k with
      | zero =>
        have := h.1 s hs
        simpa using this
      | succ k => exact h2 k (by omega) s hs

/-- A finished session ignores further samples. -/
theorem pongRun_over (s : PongState) (ho : s.pongOver = true) :
    ∀ (js : List Int), pongRun s js = s := by
  intro js
  cases js with
  | nil => rfl
  | cons j js => unfold pongRun; rw [if_pos ho]

/-- A session over two lists of samples is the session over the first
continued over the second. -/
theorem pongRun_append :
    ∀ (a b : List Int) (s : PongState), pongRun s (a ++ b) = pongRun (pongRun s a) b := by
  intro a
  induction a with
  | nil => intro b s; rfl
  | cons j a ih =>
    intro b s
    by_cases ho : s.pongOver = true
    · rw [pongRun_over s ho, pongRun_over s ho, pongRun_over s ho]
    · simp only [List.cons_append, pongRun, if_neg ho]
      exact ih b _

set_option maxRecDepth 100000 in
/-- The enumeration from the reset state passes the test for 51 steps. -/
theorem pongCheck_reset : pongCheck 51 [pongReset pongBoot] = true := by
  decide

/-- C17: for every prior state and every sequence of joystick samples, the
session started by the reset of `playPong` never has `pongScore` above 1, and
`pongOver` is set once 51 frames were due. -/
theorem pong_score_ceiling (prev : PongState) (js : List Int) :
    (pongRun (pongReset prev) js).pongScore ≤ 1 ∧
    (51 ≤ js.length → (pongRun (pongReset prev) js).pongOver = true) := by
  have hp : pongReset prev = pongReset pongBoot := rfl
  rw [hp]
  obtain ⟨h1, h2⟩ := pongCheck_sound 51 [pongReset pongBoot] pongCheck_reset
  have hmem : ∀ l : List Int, pongRun (pongReset pongBoot) l ∈
      pongIter l.length [pongReset pongBoot] :=
    fun l => pongRun_mem_pongIter l _ _ (List.mem_singleton.mpr rfl)
  by_cases hlen : js.length ≤ 51
  · refine ⟨h2 js.length hlen _ (hmem js), ?_⟩
    intro h51
    have he : js.length = 51 := by omega
    have := hmem js
    rw [he] at this
    exact h1 _ this
  · have hsplit : js = js.take 51 ++ js.drop 51 := (List.take_append_drop 51 js).symm
    have htl : (js.take 51).length = 51 := by
      rw [List.length_take]; omega
    have hm := hmem (js.take 51)
    rw [htl] at hm
    have hov := h1 _ hm
    have hsc := h2 51 (le_refl _) _ hm
    have hrun : pongRun (pongReset pongBoot) js = pongRun (pongReset pongBoot) (js.take 51) := by
      conv_lhs => rw [hsplit]
      rw [pongRun_append, pongRun_over _ hov]
    rw [hrun]
    exact ⟨hsc, fun _ => hov⟩

/-! ## Flyer: slots sharing a column -/

/-- C18 (counterexample): twenty-five neutral frames after the reset from the
boot state, with the random draws of `respawnClash`, the session is running
and slots 0 and 1 both stand in the visible column 15, slot 0 with gap row 0
and slot 1 with gap row 1. -/
theorem flappy_slots_share_column :
    (flappyRun respawnClash (flappyReset respawnClash flappyBoot)
      twentyFiveNeutral).flappyOver = false ∧
    (flappyRun respawnClash (flappyReset respawnClash flappyBoot)
      twentyFiveNeutral).obstacleCols[0]? = some 15 ∧
    (flappyRun respawnClash (flappyReset respawnClash flappyBoot)
      twentyFiveNeutral).obstacleCols[1]? = some 15 ∧
    (0 : Int) ≤ 15 ∧ (15 : Int) < lcdCols ∧
    (flappyRun respawnClash (flappyReset respawnClash flappyBoot)
      twentyFiveNeutral).gapRows[0]? = some 0 ∧
    (flappyRun respawnClash (flappyReset respawnClash flappyBoot)
      twentyFiveNeutral).gapRows[1]? = some 1 := by
  decide

/-- Advancing a slot does not lower the score. -/
theorem obstacleStep_score_le (rnd : Nat → Nat) (i : Nat) (s : FlappyState) :
    s.flappyScore ≤ (obstacleStep rnd i s).flappyScore := by
  unfold obstacleStep
  dsimp only
  split
  · dsimp only; omega
  · exact le_refl _

/-- The slot loop does not lower the score. -/
theorem obstacleLoop_score_le (rnd : Nat → Nat) :
    ∀ (n i : Nat) (s : FlappyState), s.flappyScore ≤ (obstacleLoop rnd n i s).flappyScore := by
  intro n
  induction n with
  | zero => intro i s; exact le_refl _
  | succ n ih =>
    intro i s
    unfold obstacleLoop
    split
    · exact le_refl _
    · exact le_trans (obstacleStep_score_le rnd i s) (ih (i + 1) _)

/-- Advancing a slot that stands in column 0 recycles it: the score grows. -/
theorem obstacleStep_score_of_zero (rnd : Nat → Nat) (k : Nat) (s : FlappyState)
    (hc : s.obstacleCols[k]? = some 0) :
    (obstacleStep rnd k s).flappyScore = s.flappyScore + 1 := by
  have hk : k < s.obstacleCols.length := by
    by_contra hn
    rw [List.getElem?_eq_none (by omega)] at hc
    cases hc
  have h0 : s.obstacleCols.getD k 0 = 0 := by
    rw [List.getD_eq_getElem?_getD, hc]; rfl
  have hlt : (s.obstacleCols.set k (s.obstacleCols.getD k 0 - 1)).getD k 0 < 0 := by
    rw [getD_set_eq, if_pos ⟨rfl, hk⟩, h0]; decide
  unfold obstacleStep
  dsimp only
  rw [if_pos hlt]

/-- A frame that starts with a slot in column 0 either ends the session or
recycles that slot, raising the score. -/
theorem obstacleLoop_passes_zero (rnd : Nat → Nat) (k : Nat) :
    ∀ (n i : Nat) (s : FlappyState), i ≤ k → k < i + n → s.obstacleCols[k]? = some 0 →
      (obstacleLoop rnd n i s).flappyOver = true ∨
      s.flappyScore + 1 ≤ (obstacleLoop rnd n i s).flappyScore := by
  intro n
  induction n with
  | zero => intro i s h1 h2; omega
  | succ n ih =>
    intro i s h1 h2 hc
    unfold obstacleLoop
    split
    · exact Or.inl rfl
    · by_cases hik : i = k
      · subst hik
        right
        have := obstacleLoop_score_le rnd n (i + 1) (obstacleStep rnd i s)
        rw [obstacleStep_score_of_zero rnd i s hc] at this
        exact this
      · have hc' : (obstacleStep rnd i s).obstacleCols[k]? = some 0 := by
          rw [obstacleStep_cols_ne rnd i k s hik]; exact hc
        rcases ih (i + 1) (obstacleStep rnd i s) (by omega) (by omega) hc' with h | h
        · exact Or.inl h
        · right
          have := obstacleStep_score_le rnd i s
          omega

/-- A frame that starts with slot 0 in column 0 and the other slots in columns
`≥ 1` ends the session when the player is not in the gap of slot 0, and
otherwise recycles slot 0 and moves the others one column to the left. -/
theorem obstacleLoop_first_slot (rnd : Nat → Nat) (s : FlappyState) (c1 c2 c3 c4 : Int)
    (hc : s.obstacleCols = [0, c1, c2, c3, c4])
    (h1 : 1 ≤ c1) (h2 : 1 ≤ c2) (h3 : 1 ≤ c3) (h4 : 1 ≤ c4) :
    (s.flappyRow ≠ s.gapRows.getD 0 0 →
      (obstacleLoop rnd maxObstacles 0 s).flappyOver = true) ∧
    (¬ s.flappyRow ≠ s.gapRows.getD 0 0 →
      (obstacleLoop rnd maxObstacles 0 s).obstacleCols =
        [lcdCols + random (rnd s.seed) 3 8, c1 - 1, c2 - 1, c3 - 1, c4 - 1] ∧
      (obstacleLoop rnd maxObstacles 0 s).flappyScore = s.flappyScore + 1) := by
  obtain ⟨cols, gaps, row, score, speed, over, seed⟩ := s
  dsimp only at hc ⊢
  subst hc
  have n1 : ¬ c1 = 0 := by omega
  have n2 : ¬ c2 = 0 := by omega
  have n3 : ¬ c3 = 0 := by omega
  have n4 : ¬ c4 = 0 := by omega
  have m1 : ¬ c1 - 1 < 0 := by omega
  have m2 : ¬ c2 - 1 < 0 := by omega
  have m3 : ¬ c3 - 1 < 0 := by omega
  have m4 : ¬ c4 - 1 < 0 := by omega
  constructor
  · intro hne
    have hne' : ¬ row = gaps[0]?.getD 0 := by
      rwa [List.getD_eq_getElem?_getD] at hne
    simp [maxObstacles, obstacleLoop, hne']
  · intro he
    have he' : row = gaps[0]?.getD 0 := by
      rw [← List.getD_eq_getElem?_getD]
      by_contra h; exact he h
    simp [maxObstacles, obstacleLoop, obstacleStep, n1, n2, n3, n4, m1, m2, m3, m4, he']

/-- A frame of a running session keeps the layout `SlotShape`. -/
theorem flappyFrame_slotShape (rnd : Nat → Nat) (s : FlappyState) (j1 j2 : Int)
    (hs : SlotShape s) (hrun : s.flappyOver = false) :
    SlotShape (flappyFrame rnd s j1 j2) := by
  obtain ⟨h0, hA, hB⟩ := hs hrun
  have hI := (flappyInput_eq (obstacleLoop rnd maxObstacles 0 s) j1 j2).1
  have fC : (flappyFrame rnd s j1 j2).obstacleCols =
      (obstacleLoop rnd maxObstacles 0 s).obstacleCols := by
    unfold flappyFrame; rw [hI]
  have fS : (flappyFrame rnd s j1 j2).flappyScore =
      (obstacleLoop rnd maxObstacles 0 s).flappyScore := by
    unfold flappyFrame; rw [hI]
  have fO : (flappyFrame rnd s j1 j2).flappyOver =
      (obstacleLoop rnd maxObstacles 0 s).flappyOver := by
    unfold flappyFrame; rw [hI]
  have hmono := obstacleLoop_score_le rnd maxObstacles 0 s
  intro hFo
  rw [fO] at hFo
  rw [fC, fS]
  refine ⟨by omega, ?_, ?_⟩
  · intro hz
    obtain ⟨c, hc0, hcols⟩ := hA (by omega)
    by_cases hc : c = 0
    · subst hc
      have hk : s.obstacleCols[0]? = some 0 := by rw [hcols]; rfl
      rcases obstacleLoop_passes_zero rnd 0 maxObstacles 0 s (le_refl 0) (by decide) hk with h | h
      · rw [hFo] at h; cases h
      · omega
    · have hL := obstacleLoop_cruise rnd s c (c + 4) (c + 8) (c + 12) (c + 16) hcols
        (by omega) (by omega) (by omega) (by omega) (by omega)
      refine ⟨c - 1, by omega, ?_⟩
      rw [hL]
      simp only [List.cons.injEq, and_true, true_and]
      omega
  · intro h1
    have hs01 : s.flappyScore = 0 ∨ s.flappyScore = 1 := by omega
    rcases hs01 with hs0 | hs1
    · obtain ⟨c, hc0, hcols⟩ := hA hs0
      by_cases hc : c = 0
      · subst hc
        have hF := obstacleLoop_first_slot rnd s 4 8 12 16 (by rw [hcols]; rfl)
          (by decide) (by decide) (by decide) (by decide)
        by_cases hne : s.flappyRow ≠ s.gapRows.getD 0 0
        · have := hF.1 hne
          rw [hFo] at this; cases this
        · have hr := random_range (rnd s.seed) 3 8 (by decide)
          refine ⟨3, random (rnd s.seed) 3 8, by decide, hr.1, ?_⟩
          rw [(hF.2 hne).1]
          simp only [lcdCols, List.cons.injEq, and_true, true_and]
          omega
      · have hL := obstacleLoop_cruise rnd s c (c + 4) (c + 8) (c + 12) (c + 16) hcols
          (by omega) (by omega) (by omega) (by omega) (by omega)
        rw [hL] at h1
        have h1' : s.flappyScore = 1 := h1
        omega
    · obtain ⟨c, r, hc0, hr3, hcols⟩ := hB hs1
      by_cases hc : c = 0
      · subst hc
        have hk : s.obstacleCols[1]? = some 0 := by rw [hcols]; rfl
        rcases obstacleLoop_passes_zero rnd 1 maxObstacles 0 s (by decide) (by decide) hk
          with h | h
        · rw [hFo] at h; cases h
        · omega
      · have hL := obstacleLoop_cruise rnd s (c + 13 + r) c (c + 4) (c + 8) (c + 12) hcols
          (by omega) (by omega) (by omega) (by omega) (by omega)
        refine ⟨c - 1, r, by omega, hr3, ?_⟩
        rw [hL]
        simp only [List.cons.injEq, and_true, true_and]
        omega

/-- A session keeps the layout `SlotShape`. -/
theorem flappyRun_slotShape (rnd : Nat → Nat) :
    ∀ (js : List (Int × Int)) (s : FlappyState), SlotShape s → SlotShape (flappyRun rnd s js) := by
  intro js
  induction js with
  | nil => intro s h; exact h
  | cons j js ih =>
    intro s h
    unfold flappyRun
    by_cases ho : s.flappyOver = true
    · rw [if_pos ho]; exact h
    · rw [if_neg ho]
      exact ih _ (flappyFrame_slotShape rnd s j.1 j.2 h (by simpa using ho))

/-- C18 (amended): in every state reached from the reset of `playFlappyBird`
on a well-formed state by any number of frames, with any random draws and
joystick samples, while the session is running and at most one slot has been
recycled (`flappyScore ≤ 1`), the five slots stand in five different columns;
so no two of them share a column, with whatever gap rows. -/
theorem flappy_slots_distinct_until_second_recycle (rnd : Nat → Nat) (prev : FlappyState)
    (js : List (Int × Int)) (i k : Nat) (hwf : prev.WF)
    (hrun : (flappyRun rnd (flappyReset rnd prev) js).flappyOver = false)
    (hscore : (flappyRun rnd (flappyReset rnd prev) js).flappyScore ≤ 1)
    (hi : i < maxObstacles) (hk : k < maxObstacles) (hik : i ≠ k) :
    (flappyRun rnd (flappyReset rnd prev) js).obstacleCols.getD i 0 ≠
      (flappyRun rnd (flappyReset rnd prev) js).obstacleCols.getD k 0 := by
  have h0 : SlotShape (flappyReset rnd prev) := by
    rw [flappyReset_eq rnd prev hwf]
    intro _
    refine ⟨le_refl _, fun _ => ⟨16, by decide, rfl⟩, fun h => ?_⟩
    exact absurd (show (0 : Int) = 1 from h) (by decide)
  obtain ⟨hs, hA, hB⟩ := flappyRun_slotShape rnd js _ h0 hrun
  unfold maxObstacles at hi hk
  have hcase : (flappyRun rnd (flappyReset rnd prev) js).flappyScore = 0 ∨
      (flappyRun rnd (flappyReset rnd prev) js).flappyScore = 1 := by omega
  rcases hcase with h | h
  · obtain ⟨c, _, hcols⟩ := hA h
    rw [hcols]
    interval_cases i <;> interval_cases k <;> simp at hik ⊢
  · obtain ⟨c, r, _, hr, hcols⟩ := hB h
    rw [hcols]
    interval_cases i <;> interval_cases k <;> simp at hik ⊢ <;> omega

/-- C18 (witness): seventeen neutral frames after the reset from the boot
state with all random draws 0: the session is running with score 1 and slots 0
and 1 stand in different columns. -/
theorem flappy_slots_distinct_until_second_recycle_witness :
    flappyBoot.WF ∧
    (flappyRun (fun _ => 0) (flappyReset (fun _ => 0) flappyBoot)
      (List.replicate 17 (512, 512))).flappyOver = false ∧
    (flappyRun (fun _ => 0) (flappyReset (fun _ => 0) flappyBoot)
      (List.replicate 17 (512, 512))).flappyScore ≤ 1 ∧
    0 < maxObstacles ∧ 1 < maxObstacles ∧ (0 : Nat) ≠ 1 ∧
    (flappyRun (fun _ => 0) (flappyReset (fun _ => 0) flappyBoot)
      (List.replicate 17 (512, 512))).obstacleCols.getD 0 0 ≠
    (flappyRun (fun _ => 0) (flappyReset (fun _ => 0) flappyBoot)
      (List.replicate 17 (512, 512))).obstacleCols.getD 1 0 :=
  ⟨by decide, by decide, by decide, by decide, by decide, by decide,
    flappy_slots_distinct_until_second_recycle (fun _ => 0) flappyBoot
      (List.replicate 17 (512, 512)) 0 1 (by decide) (by decide) (by decide) (by decide)
      (by decide) (by decide)⟩

/-- C17 (witness): fifty-one neutral frames after the reset end the session. -/
theorem pong_score_ceiling_witness :
    51 ≤ fiftyOneNeutral.length ∧
    (pongRun (pongReset pongBoot) fiftyOneNeutral).pongOver = true :=
  ⟨by decide, (pong_score_ceiling pongBoot fiftyOneNeutral).2 (by decide)⟩

/-! ## Session reset -/

/-- The reset of `playPong` does not depend on the prior state. -/
theorem pongReset_independent (p q : PongState) : pongReset p = pongReset q := by
  rfl

/-- The reset of `playFlappyBird` on well-formed states with the same random
draws does not depend on the prior state. -/
theorem flappyReset_independent (rnd : Nat → Nat) (p q : FlappyState) (hp : p.WF)
    (hq : q.WF) (hseed : p.seed = q.seed) : flappyReset rnd p = flappyReset rnd q := by
  rw [flappyReset_eq rnd p hp, flappyReset_eq rnd q hq, hseed]

/-- C19 (evaluation at the failing input): the reset of `playSnake` after the
boot state and after `snakeCrashed`, a finished earlier session, with the same
random draws (food at (1,1)): both sessions start with length 3, head (5,0)
and the same food, but the live segment 1 is (0,0) in the first and (6,0) in
the second, and the first frame with a neutral joystick leaves the first
session running and ends the second. -/
theorem snakeReset_keeps_old_segments :
    snakeBoot.WF ∧ snakeCrashed.WF ∧ snakeCrashed.snakeOver = true ∧
    (snakeReset drawOne snakeBoot).snakeLength = 3 ∧
    (snakeReset drawOne snakeCrashed).snakeLength = 3 ∧
    (snakeReset drawOne snakeBoot).foodX = (snakeReset drawOne snakeCrashed).foodX ∧
    (snakeReset drawOne snakeBoot).foodY = (snakeReset drawOne snakeCrashed).foodY ∧
    (snakeReset drawOne snakeBoot).snakeX.getD 0 0
      = (snakeReset drawOne snakeCrashed).snakeX.getD 0 0 ∧
    (snakeReset drawOne snakeBoot).snakeX.getD 1 0 = 0 ∧
    (snakeReset drawOne snakeCrashed).snakeX.getD 1 0 = 6 ∧
    (snakeFrame drawOne (snakeReset drawOne snakeBoot) 512 512).snakeOver = false ∧
    (snakeFrame drawOne (snakeReset drawOne snakeCrashed) 512 512).snakeOver = true := by
  decide

/-! ## Snake: the segment added by a capture -/

/-- C20 (evaluation at the failing input): in the well-formed running state
`snakeBeforeGrowth` of length 4 the tail, segment 3, is at (5,0) and the food
is one cell ahead of the head.  After the frame the head has advanced by the
direction and segments 1..3 hold the former positions of segments 0..2, the
length is 5, but the new segment 4 holds (0,0), the old content of the arrays,
not the position (5,0) of the prior tail. -/
theorem snakeFrame_new_segment_stale :
    snakeBeforeGrowth.WF ∧ snakeBeforeGrowth.snakeOver = false ∧
    snakeBeforeGrowth.snakeLength = 4 ∧ snakeBeforeGrowth.snakeLength < snakeMaxLength ∧
    snakeBeforeGrowth.snakeX.take 4 = [8, 7, 6, 5] ∧
    snakeBeforeGrowth.snakeY.take 4 = [0, 0, 0, 0] ∧
    (snakeFrame feedTwice snakeBeforeGrowth 512 512).snakeLength = 5 ∧
    (snakeFrame feedTwice snakeBeforeGrowth 512 512).snakeX.take 4 = [9, 8, 7, 6] ∧
    (snakeFrame feedTwice snakeBeforeGrowth 512 512).snakeY.take 4 = [0, 0, 0, 0] ∧
    (snakeFrame feedTwice snakeBeforeGrowth 512 512).snakeX.getD 4 0 = 0 ∧
    (snakeFrame feedTwice snakeBeforeGrowth 512 512).snakeY.getD 4 0 = 0 ∧
    (snakeFrame feedTwice snakeBeforeGrowth 512 512).snakeX.getD 4 0
      ≠ snakeBeforeGrowth.snakeX.getD 3 0 := by
  decide

end GamingSystem
